import Mathlib

set_option autoImplicit false

/-!
Shallow embedding of the entity-cache and reconciliation core of the repository
(structures, managers and action handlers under src/), together with proofs of
the behavioural claims about it.

JS value model: `none` stands for both `undefined` and `null` (the sources
distinguish them only through nullish checks and coalescing operators, which
treat both alike); a payload field of type `Option (Option A)` is `none` when
the key is absent, `some none` when the key is present holding null, and
`some (some v)` when the key is present holding `v`.
-/

namespace Djs

/-- Payload field: key absent, or key present with a nullable value. -/
abbrev JKey (A : Type) := Option (Option A)

/-- The value carried by a payload key, collapsing absent and null to `none`. -/
def jval {A : Type} (p : JKey A) : Option A := p.join

/-- The guarded assignment pattern of every `_patch`:
`if (key in data) this.field = data.key` — assign the carried value when the
key is present, keep the old value otherwise. Each source statement guards a
distinct field, so a patch is rendered as one simultaneous record update with
one `jupd` per guarded line. -/
def jupd {A : Type} (k : JKey A) (old : Option A) : Option A :=
  match k with
  | some v => v
  | none => old

/-- The guarded assignment with an else branch re-assigning a default when the
field is still nullish (`else this.field ??= d`). -/
def jupdD {A : Type} (k : JKey A) (old : Option A) (d : A) : Option A :=
  match k with
  | some v => v
  | none => some (old.getD d)

/-- A guarded replacement of a plain (list-valued) field. -/
def lupd {A : Type} (k : Option A) (old : A) : A :=
  match k with
  | some v => v
  | none => old

/-- Association-list cache keyed by `K` in insertion order, as a `Collection`. -/
abbrev Cache (K V : Type) := List (K × V)

/-- `cache.get(k)`: first entry whose key equals `k`. -/
def cacheGet {K V : Type} [DecidableEq K] (c : Cache K V) (k : K) : Option V :=
  match c with
  | [] => none
  | (k', v) :: rest => if k' = k then some v else cacheGet rest k

/-- `cache.set(k, v)`: replace the entry in place if the key exists, else append. -/
def cacheSet {K V : Type} [DecidableEq K] (c : Cache K V) (k : K) (v : V) : Cache K V :=
  match c with
  | [] => [(k, v)]
  | (k', v') :: rest => if k' = k then (k', v) :: rest else (k', v') :: cacheSet rest k v

/-- The numeric value of one decimal digit character. -/
def digitVal (c : Char) : Nat := c.toNat - 48

/-- `BigInt(id)` on a decimal snowflake string (comparisons in the sources
convert ids with `BigInt` before ordering them numerically; snowflakes are
decimal digit strings, on which this fold is exactly decimal parsing). -/
def bigIntOf (id : Option String) : Nat :=
  match id with
  | none => 0
  | some s => s.data.foldl (fun acc c => acc * 10 + digitVal c) 0

/-- Modelled from the spec: the numeric channel `type` discriminant table of
`src/util/Constants.js`, which is not among the provided sources; the numbering
is the wire protocol's, and the names are the ones the provided sources match on. -/
def channelTypeName (t : Option Nat) : String :=
  match t with
  | some 0 => "GUILD_TEXT"
  | some 1 => "DM"
  | some 2 => "GUILD_VOICE"
  | some 3 => "GROUP_DM"
  | some 4 => "GUILD_CATEGORY"
  | some 5 => "GUILD_NEWS"
  | some 10 => "GUILD_NEWS_THREAD"
  | some 11 => "GUILD_PUBLIC_THREAD"
  | some 12 => "GUILD_PRIVATE_THREAD"
  | some 13 => "GUILD_STAGE_VOICE"
  | some 15 => "GUILD_FORUM"
  | _ => "UNKNOWN"

/-- Modelled from the spec: `getSortableGroupTypes` of `src/util/Util.js`
(not among the provided sources): the sortable group a channel type belongs to,
used by `GuildChannel#position` to select the siblings it is ranked against. -/
def getSortableGroupTypes (t : String) : List String :=
  match t with
  | "GUILD_TEXT" => ["GUILD_TEXT", "GUILD_NEWS", "GUILD_FORUM"]
  | "GUILD_NEWS" => ["GUILD_TEXT", "GUILD_NEWS", "GUILD_FORUM"]
  | "GUILD_FORUM" => ["GUILD_TEXT", "GUILD_NEWS", "GUILD_FORUM"]
  | "GUILD_VOICE" => ["GUILD_VOICE", "GUILD_STAGE_VOICE"]
  | "GUILD_STAGE_VOICE" => ["GUILD_VOICE", "GUILD_STAGE_VOICE"]
  | "GUILD_CATEGORY" => ["GUILD_CATEGORY"]
  | other => [other]

/-- A raw permission-overwrite payload entry (`permission_overwrites` array
elements); kept as raw data, the overwrite manager cache holds exactly them. -/
structure RawOverwrite where
  id : Option String
  otype : Option Nat
  allow : Option Nat
  deny : Option Nat
deriving Repr, DecidableEq

/-- A raw `available_tags` payload entry of a forum channel; the pure
key-renaming `transformAPIGuildForumTag` of `src/util/Util.js` (not among the
provided sources) is omitted, the cache holds the raw entries. -/
structure RawForumTag where
  id : Option String := none
  name : Option String := none
  moderated : Option Bool := none
  emoji_id : Option String := none
  emoji_name : Option String := none
deriving Repr, DecidableEq

/-- Wire payload for a channel, covering every key read by `Channel._patch`,
`GuildChannel._patch`, `BaseGuildTextChannel._patch`,
`BaseGuildVoiceChannel._patch` and `ForumChannel._patch`; each class reads its
own subset of the one JSON object. -/
structure ChannelPayload where
  id : JKey String := none
  ctype : JKey Nat := none
  flags : JKey Nat := none
  guild_id : JKey String := none
  name : JKey String := none
  position : JKey Int := none
  parent_id : JKey String := none
  permission_overwrites : Option (List RawOverwrite) := none
  topic : JKey String := none
  nsfw : JKey Bool := none
  default_auto_archive_duration : JKey Nat := none
  default_thread_rate_limit_per_user : JKey Nat := none
  messages : Option (List String) := none
  available_tags : Option (List RawForumTag) := none
  rate_limit_per_user : JKey Nat := none
  bitrate : JKey Nat := none
  rtc_region : JKey String := none
  user_limit : JKey Nat := none
  status : JKey String := none
deriving Repr, DecidableEq

/-- Mutable state of a text-based guild channel: the fields assigned by the
`Channel`, `GuildChannel` and `BaseGuildTextChannel` constructors and patches. -/
structure ChannelState where
  ctype : String := "UNKNOWN"
  deleted : Bool := false
  id : Option String := none
  flags : Option Nat := none
  guildId : Option String := none
  parentId : Option String := none
  name : Option String := none
  rawPosition : Option Int := none
  overwrites : List RawOverwrite := []
  topic : Option String := none
  nsfw : Bool := false
  defaultAutoArchiveDuration : Option Nat := none
  defaultThreadRateLimitPerUser : Option Nat := none
  messages : List String := []
deriving Repr, DecidableEq

namespace ChannelState

/-- `Channel._patch`: unconditionally assigns `this.id = data.id`, then the
guarded `flags` assignment (the raw bitfield stands for the frozen
`ChannelFlags` wrapper). -/
def patchChannel (s : ChannelState) (data : ChannelPayload) : ChannelState :=
  { s with
    id := jval data.id
    flags := jupd data.flags s.flags }

/-- `MessageManager._add` restricted to the message ids the channel state
keeps: insert the id if it is new, else keep the existing entry. -/
def messageAdd (ms : List String) (m : String) : List String :=
  if ms.contains m then ms else ms ++ [m]

/-- `GuildChannel._patch`: `super._patch`, then the guarded `name`, `position`,
`guild_id`, `parent_id` assignments; on a `permission_overwrites` key the
overwrite cache is cleared and rebuilt from exactly the payload entries. -/
def patchGuildChannel (s : ChannelState) (data : ChannelPayload) : ChannelState :=
  { patchChannel s data with
    name := jupd data.name s.name
    rawPosition := jupd data.position s.rawPosition
    guildId := jupd data.guild_id s.guildId
    parentId := jupd data.parent_id s.parentId
    overwrites := lupd data.permission_overwrites s.overwrites }

/-- `BaseGuildTextChannel._patch`: `super._patch`, then `topic`, `nsfw`
(with `Boolean` coercion), `default_auto_archive_duration`,
`default_thread_rate_limit_per_user` (defaulted to null when absent, which
keeps any non-null prior value), and the `messages` additions. -/
def patchText (s : ChannelState) (data : ChannelPayload) : ChannelState :=
  { patchGuildChannel s data with
    topic := jupd data.topic s.topic
    nsfw := match data.nsfw with
      | some v => v.getD false
      | none => s.nsfw
    defaultAutoArchiveDuration := jupd data.default_auto_archive_duration s.defaultAutoArchiveDuration
    defaultThreadRateLimitPerUser := jupd data.default_thread_rate_limit_per_user s.defaultThreadRateLimitPerUser
    messages := match data.messages with
      | some l => l.foldl messageAdd s.messages
      | none => s.messages }

/-- The `BaseGuildTextChannel` constructor chain: `Channel` sets
`deleted = false` and the type name, `GuildChannel` sets `guildId` from the
guild argument (falling back to `data.guild_id`) and initializes `parentId`
to null, `BaseGuildTextChannel` sets `nsfw = Boolean(data.nsfw)` and finally
runs `this._patch(data)`. -/
def make (guild : Option String) (data : ChannelPayload) : ChannelState :=
  let init : ChannelState :=
    { ctype := channelTypeName (jval data.ctype)
      deleted := false
      guildId := guild <|> jval data.guild_id
      parentId := none
      nsfw := (jval data.nsfw).getD false }
  patchText init data

end ChannelState

/-- JS `>` on two possibly-undefined numbers: false unless both are numbers. -/
def jgt (a b : Option Int) : Bool :=
  match a, b with
  | some x, some y => decide (y < x)
  | _, _ => false

/-- JS `===` on two possibly-undefined numbers, under the collapsed value model. -/
def jeqNum (a b : Option Int) : Bool := a == b

/-- `GuildChannel#position`: rank of the channel among the cached channels of
its guild that share its sortable group (and its parent, unless the channel is
a category), counting the tie on `rawPosition` by `BigInt` id comparison. -/
def ChannelState.position (cache : List ChannelState) (self : ChannelState) : Nat :=
  let selfIsCategory := self.ctype = "GUILD_CATEGORY"
  let types := getSortableGroupTypes self.ctype
  cache.countP (fun c =>
    types.contains c.ctype &&
    (selfIsCategory || c.parentId == self.parentId) &&
    (if jeqNum self.rawPosition c.rawPosition then
      decide (bigIntOf c.id < bigIntOf self.id)
    else
      jgt self.rawPosition c.rawPosition))

/-- The `tags` sub-object of a role payload; the `premium_subscriber`,
`available_for_purchase` and `guild_connections` keys are presence-only
in the source, so they are carried as presence booleans. -/
structure RoleTagsPayload where
  bot_id : JKey String := none
  integration_id : JKey String := none
  premium_subscriber : Bool := false
  subscription_listing_id : JKey String := none
  available_for_purchase : Bool := false
  guild_connections : Bool := false
deriving Repr, DecidableEq

/-- The `tags` object built by `Role._patch`; a field the payload lacks stays
unset on the freshly created object. -/
structure RoleTags where
  botId : Option String := none
  integrationId : Option String := none
  premiumSubscriberRole : Bool := false
  subscriptionListingId : Option String := none
  availableForPurchase : Bool := false
  guildConnections : Bool := false
deriving Repr, DecidableEq

/-- Wire payload for a role, covering every key `Role._patch` reads; the
numeric-string `permissions` value is carried as the number it denotes. -/
structure RolePayload where
  id : JKey String := none
  name : JKey String := none
  color : JKey Int := none
  hoist : JKey Bool := none
  position : JKey Int := none
  permissions : JKey Nat := none
  managed : JKey Bool := none
  mentionable : JKey Bool := none
  icon : JKey String := none
  unicode_emoji : JKey String := none
  tags : Option RoleTagsPayload := none
  flags : JKey Nat := none
deriving Repr, DecidableEq

/-- Mutable state of a role: the fields the `Role` constructor and
`Role._patch` assign. -/
structure RoleState where
  deleted : Bool := false
  id : Option String := none
  name : Option String := none
  color : Option Int := none
  hoist : Option Bool := none
  rawPosition : Option Int := none
  permissions : Option Nat := none
  managed : Option Bool := none
  mentionable : Option Bool := none
  icon : Option String := none
  unicodeEmoji : Option String := none
  tags : Option RoleTags := none
  flags : Option Nat := none
deriving Repr, DecidableEq

namespace RoleState

/-- The object `Role._patch` builds for `this.tags` from a present, non-null
`data.tags`. -/
def buildTags (t : RoleTagsPayload) : RoleTags :=
  { botId := jval t.bot_id
    integrationId := jval t.integration_id
    premiumSubscriberRole := t.premium_subscriber
    subscriptionListingId := jval t.subscription_listing_id
    availableForPurchase := t.available_for_purchase
    guildConnections := t.guild_connections }

/-- `Role._patch`: unconditional `this.id = data.id`, guarded scalar fields,
guarded `icon` and `unicode_emoji`, the unconditional
`this.tags = data.tags ? populated : null`, and `flags` with its
default-on-absence (`this.flags` defaults to an empty bitfield). -/
def patch (s : RoleState) (data : RolePayload) : RoleState :=
  { s with
    id := jval data.id
    name := jupd data.name s.name
    color := jupd data.color s.color
    hoist := jupd data.hoist s.hoist
    rawPosition := jupd data.position s.rawPosition
    permissions := jupd data.permissions s.permissions
    managed := jupd data.managed s.managed
    mentionable := jupd data.mentionable s.mentionable
    icon := jupd data.icon s.icon
    unicodeEmoji := jupd data.unicode_emoji s.unicodeEmoji
    tags := data.tags.map buildTags
    flags := jupdD data.flags s.flags 0 }

/-- The `Role` constructor: `deleted = false`, `icon` and `unicodeEmoji`
initialized to null, then `this._patch(data)` when data is given. -/
def make (data : Option RolePayload) : RoleState :=
  let init : RoleState := { deleted := false, icon := none, unicodeEmoji := none }
  match data with
  | some d => patch init d
  | none => init

/-- `Role#position`: rank of the role among all cached roles of its guild,
counting roles strictly below it by `rawPosition` and, on a tie, the roles
whose `BigInt` id is greater than its own. -/
def position (cache : List RoleState) (self : RoleState) : Nat :=
  cache.countP (fun r =>
    if jgt self.rawPosition r.rawPosition then true
    else jeqNum self.rawPosition r.rawPosition && decide (bigIntOf self.id < bigIntOf r.id))

end RoleState

/-- Wire payload for a voice state, covering every key `VoiceState._patch`
reads; the `request_to_speak_timestamp` value is kept as the raw timestamp
string (its `Date.parse` conversion is a platform function that does not affect
the key-gated update structure). -/
structure VoiceStatePayload where
  user_id : JKey String := none
  deaf : JKey Bool := none
  mute : JKey Bool := none
  self_deaf : JKey Bool := none
  self_mute : JKey Bool := none
  self_video : JKey Bool := none
  session_id : JKey String := none
  self_stream : JKey Bool := none
  channel_id : JKey String := none
  suppress : JKey Bool := none
  request_to_speak_timestamp : JKey String := none
deriving Repr, DecidableEq

/-- Mutable state of a `VoiceState`. -/
structure VoiceState where
  id : Option String := none
  serverDeaf : Option Bool := none
  serverMute : Option Bool := none
  selfDeaf : Option Bool := none
  selfMute : Option Bool := none
  selfVideo : Option Bool := none
  sessionId : Option String := none
  streaming : Option Bool := none
  channelId : Option String := none
  suppress : Option Bool := none
  requestToSpeakTimestamp : Option String := none
deriving Repr, DecidableEq

namespace VoiceState

/-- `VoiceState._patch`. Every field is key-guarded; the else branches of the
source assign null only when the field is still nullish (`??= null`), which is
the identity under the collapsed value model. The `streaming` field is the
exception: it is assigned (from `self_stream`, defaulting to false) exactly
when the payload carries the `self_video` key, and `suppress` has no else
branch at all. -/
def patch (s : VoiceState) (data : VoiceStatePayload) : VoiceState :=
  { s with
    serverDeaf := jupd data.deaf s.serverDeaf
    serverMute := jupd data.mute s.serverMute
    selfDeaf := jupd data.self_deaf s.selfDeaf
    selfMute := jupd data.self_mute s.selfMute
    selfVideo := jupd data.self_video s.selfVideo
    sessionId := jupd data.session_id s.sessionId
    streaming := match data.self_video with
      | some _ => some ((jval data.self_stream).getD false)
      | none => s.streaming
    channelId := jupd data.channel_id s.channelId
    suppress := jupd data.suppress s.suppress
    requestToSpeakTimestamp := jupd data.request_to_speak_timestamp s.requestToSpeakTimestamp }

/-- The `VoiceState` constructor: `this.id = data.user_id`, then
`this._patch(data)`. -/
def make (data : VoiceStatePayload) : VoiceState :=
  patch { id := jval data.user_id } data

end VoiceState

/-- The key-wise union of two voice-state payloads, the later payload winning
on overlap (the spread of the first payload followed by the second). -/
def VoiceStatePayload.union (p1 p2 : VoiceStatePayload) : VoiceStatePayload :=
  { user_id := p2.user_id <|> p1.user_id
    deaf := p2.deaf <|> p1.deaf
    mute := p2.mute <|> p1.mute
    self_deaf := p2.self_deaf <|> p1.self_deaf
    self_mute := p2.self_mute <|> p1.self_mute
    self_video := p2.self_video <|> p1.self_video
    session_id := p2.session_id <|> p1.session_id
    self_stream := p2.self_stream <|> p1.self_stream
    channel_id := p2.channel_id <|> p1.channel_id
    suppress := p2.suppress <|> p1.suppress
    request_to_speak_timestamp := p2.request_to_speak_timestamp <|> p1.request_to_speak_timestamp }

/-- Two voice-state payloads specify disjoint key sets. -/
def VoiceStatePayload.disjoint (p1 p2 : VoiceStatePayload) : Prop :=
  (p1.user_id = none ∨ p2.user_id = none) ∧
  (p1.deaf = none ∨ p2.deaf = none) ∧
  (p1.mute = none ∨ p2.mute = none) ∧
  (p1.self_deaf = none ∨ p2.self_deaf = none) ∧
  (p1.self_mute = none ∨ p2.self_mute = none) ∧
  (p1.self_video = none ∨ p2.self_video = none) ∧
  (p1.session_id = none ∨ p2.session_id = none) ∧
  (p1.self_stream = none ∨ p2.self_stream = none) ∧
  (p1.channel_id = none ∨ p2.channel_id = none) ∧
  (p1.suppress = none ∨ p2.suppress = none) ∧
  (p1.request_to_speak_timestamp = none ∨ p2.request_to_speak_timestamp = none)

instance (p1 p2 : VoiceStatePayload) : Decidable (VoiceStatePayload.disjoint p1 p2) := by
  unfold VoiceStatePayload.disjoint
  infer_instance

/-- The key-wise union of two channel payloads, the later payload winning on
overlap. -/
def ChannelPayload.union (p1 p2 : ChannelPayload) : ChannelPayload :=
  { id := p2.id <|> p1.id
    ctype := p2.ctype <|> p1.ctype
    flags := p2.flags <|> p1.flags
    guild_id := p2.guild_id <|> p1.guild_id
    name := p2.name <|> p1.name
    position := p2.position <|> p1.position
    parent_id := p2.parent_id <|> p1.parent_id
    permission_overwrites := p2.permission_overwrites <|> p1.permission_overwrites
    topic := p2.topic <|> p1.topic
    nsfw := p2.nsfw <|> p1.nsfw
    default_auto_archive_duration := p2.default_auto_archive_duration <|> p1.default_auto_archive_duration
    default_thread_rate_limit_per_user := p2.default_thread_rate_limit_per_user <|> p1.default_thread_rate_limit_per_user
    messages := p2.messages <|> p1.messages
    available_tags := p2.available_tags <|> p1.available_tags
    rate_limit_per_user := p2.rate_limit_per_user <|> p1.rate_limit_per_user
    bitrate := p2.bitrate <|> p1.bitrate
    rtc_region := p2.rtc_region <|> p1.rtc_region
    user_limit := p2.user_limit <|> p1.user_limit
    status := p2.status <|> p1.status }

/-- Two channel payloads specify disjoint key sets. -/
def ChannelPayload.disjoint (p1 p2 : ChannelPayload) : Prop :=
  (p1.id = none ∨ p2.id = none) ∧
  (p1.ctype = none ∨ p2.ctype = none) ∧
  (p1.flags = none ∨ p2.flags = none) ∧
  (p1.guild_id = none ∨ p2.guild_id = none) ∧
  (p1.name = none ∨ p2.name = none) ∧
  (p1.position = none ∨ p2.position = none) ∧
  (p1.parent_id = none ∨ p2.parent_id = none) ∧
  (p1.permission_overwrites = none ∨ p2.permission_overwrites = none) ∧
  (p1.topic = none ∨ p2.topic = none) ∧
  (p1.nsfw = none ∨ p2.nsfw = none) ∧
  (p1.default_auto_archive_duration = none ∨ p2.default_auto_archive_duration = none) ∧
  (p1.default_thread_rate_limit_per_user = none ∨ p2.default_thread_rate_limit_per_user = none) ∧
  (p1.messages = none ∨ p2.messages = none) ∧
  (p1.available_tags = none ∨ p2.available_tags = none) ∧
  (p1.rate_limit_per_user = none ∨ p2.rate_limit_per_user = none) ∧
  (p1.bitrate = none ∨ p2.bitrate = none) ∧
  (p1.rtc_region = none ∨ p2.rtc_region = none) ∧
  (p1.user_limit = none ∨ p2.user_limit = none) ∧
  (p1.status = none ∨ p2.status = none)

/-- Mutable state of a `ForumChannel`: the `Channel` and `GuildChannel` level
fields plus the forum-specific ones; unlike the text channel, `nsfw` here is
assigned raw (no `Boolean` coercion) and defaulted with `??= false`. -/
structure ForumChannelState where
  ctype : String := "UNKNOWN"
  deleted : Bool := false
  id : Option String := none
  flags : Option Nat := none
  guildId : Option String := none
  parentId : Option String := none
  name : Option String := none
  rawPosition : Option Int := none
  overwrites : List RawOverwrite := []
  availableTags : List RawForumTag := []
  defaultThreadRateLimitPerUser : Option Nat := none
  rateLimitPerUser : Option Nat := none
  defaultAutoArchiveDuration : Option Nat := none
  nsfw : Option Bool := none
  topic : Option String := none
deriving Repr, DecidableEq

namespace ForumChannelState

/-- `Channel._patch` and `GuildChannel._patch` as run on a forum channel
(same statements as on the text channel, replayed on the forum state). -/
def patchGuildChannel (s : ForumChannelState) (data : ChannelPayload) : ForumChannelState :=
  { s with
    id := jval data.id
    flags := jupd data.flags s.flags
    name := jupd data.name s.name
    rawPosition := jupd data.position s.rawPosition
    guildId := jupd data.guild_id s.guildId
    parentId := jupd data.parent_id s.parentId
    overwrites := lupd data.permission_overwrites s.overwrites }

/-- `ForumChannel._patch`: the super patches, then the guarded forum fields
with their `??=` fallbacks (`availableTags` to `[]`, the rate limits and the
auto-archive duration to null, `nsfw` to false), and the guarded `topic`. -/
def patch (s : ForumChannelState) (data : ChannelPayload) : ForumChannelState :=
  { patchGuildChannel s data with
    availableTags := lupd data.available_tags s.availableTags
    defaultThreadRateLimitPerUser := jupd data.default_thread_rate_limit_per_user s.defaultThreadRateLimitPerUser
    rateLimitPerUser := jupd data.rate_limit_per_user s.rateLimitPerUser
    defaultAutoArchiveDuration := jupd data.default_auto_archive_duration s.defaultAutoArchiveDuration
    nsfw := jupdD data.nsfw s.nsfw false
    topic := jupd data.topic s.topic }

/-- The `ForumChannel` constructor chain: the `Channel` and `GuildChannel`
constructors (no immediate patch), then `this._patch(data)`. -/
def make (guild : Option String) (data : ChannelPayload) : ForumChannelState :=
  let init : ForumChannelState :=
    { ctype := channelTypeName (jval data.ctype)
      deleted := false
      guildId := guild <|> jval data.guild_id
      parentId := none }
  patch init data

end ForumChannelState

/-- Mutable state of a `BaseGuildVoiceChannel` (`VoiceChannel` and
`StageChannel` add only getters): the `Channel` and `GuildChannel` level
fields plus the voice-specific ones; the constructor sets
`nsfw = Boolean(data.nsfw)` but the patch assigns the raw value. -/
structure VoiceChannelState where
  ctype : String := "UNKNOWN"
  deleted : Bool := false
  id : Option String := none
  flags : Option Nat := none
  guildId : Option String := none
  parentId : Option String := none
  name : Option String := none
  rawPosition : Option Int := none
  overwrites : List RawOverwrite := []
  nsfw : Option Bool := none
  bitrate : Option Nat := none
  rtcRegion : Option String := none
  userLimit : Option Nat := none
  messages : List String := []
  rateLimitPerUser : Option Nat := none
  status : Option String := none
deriving Repr, DecidableEq

namespace VoiceChannelState

/-- `Channel._patch` and `GuildChannel._patch` as run on a voice-based
channel. -/
def patchGuildChannel (s : VoiceChannelState) (data : ChannelPayload) : VoiceChannelState :=
  { s with
    id := jval data.id
    flags := jupd data.flags s.flags
    name := jupd data.name s.name
    rawPosition := jupd data.position s.rawPosition
    guildId := jupd data.guild_id s.guildId
    parentId := jupd data.parent_id s.parentId
    overwrites := lupd data.permission_overwrites s.overwrites }

/-- `BaseGuildVoiceChannel._patch`: the super patches, then the guarded
`bitrate`, `rtc_region`, `user_limit`, `messages`, `rate_limit_per_user`,
`nsfw` (raw assignment) and `status` (defaulted to null when absent). -/
def patch (s : VoiceChannelState) (data : ChannelPayload) : VoiceChannelState :=
  { patchGuildChannel s data with
    bitrate := jupd data.bitrate s.bitrate
    rtcRegion := jupd data.rtc_region s.rtcRegion
    userLimit := jupd data.user_limit s.userLimit
    messages := match data.messages with
      | some l => l.foldl ChannelState.messageAdd s.messages
      | none => s.messages
    rateLimitPerUser := jupd data.rate_limit_per_user s.rateLimitPerUser
    nsfw := jupd data.nsfw s.nsfw
    status := jupd data.status s.status }

/-- The `BaseGuildVoiceChannel` constructor chain: the `Channel` and
`GuildChannel` constructors (no immediate patch), `nsfw = Boolean(data.nsfw)`,
then `this._patch(data)`. -/
def make (guild : Option String) (data : ChannelPayload) : VoiceChannelState :=
  let init : VoiceChannelState :=
    { ctype := channelTypeName (jval data.ctype)
      deleted := false
      guildId := guild <|> jval data.guild_id
      parentId := none
      nsfw := some ((jval data.nsfw).getD false) }
  patch init data

end VoiceChannelState

/-- Mutable state of a channel constructed at the `GuildChannel` level
(`CategoryChannel`, which is not among the provided sources, adds no fields of
its own on top of `GuildChannel`). -/
structure CategoryChannelState where
  ctype : String := "UNKNOWN"
  deleted : Bool := false
  id : Option String := none
  flags : Option Nat := none
  guildId : Option String := none
  parentId : Option String := none
  name : Option String := none
  rawPosition : Option Int := none
  overwrites : List RawOverwrite := []
deriving Repr, DecidableEq

namespace CategoryChannelState

/-- `Channel._patch` and `GuildChannel._patch` on a category channel. -/
def patch (s : CategoryChannelState) (data : ChannelPayload) : CategoryChannelState :=
  { s with
    id := jval data.id
    flags := jupd data.flags s.flags
    name := jupd data.name s.name
    rawPosition := jupd data.position s.rawPosition
    guildId := jupd data.guild_id s.guildId
    parentId := jupd data.parent_id s.parentId
    overwrites := lupd data.permission_overwrites s.overwrites }

/-- The `GuildChannel` constructor with an immediate patch. -/
def make (guild : Option String) (data : ChannelPayload) : CategoryChannelState :=
  let init : CategoryChannelState :=
    { ctype := channelTypeName (jval data.ctype)
      deleted := false
      guildId := guild <|> jval data.guild_id
      parentId := none }
  patch init data

end CategoryChannelState

/-- A cached guild channel of any of the embedded concrete classes. -/
inductive AnyChannel where
  | text : ChannelState → AnyChannel
  | voice : VoiceChannelState → AnyChannel
  | category : CategoryChannelState → AnyChannel
  | forum : ForumChannelState → AnyChannel
deriving Repr, DecidableEq

namespace AnyChannel

/-- `channel.id` of a cached channel. -/
def cid : AnyChannel → Option String
  | text s => s.id
  | voice s => s.id
  | category s => s.id
  | forum s => s.id

/-- `channel.name` of a cached channel. -/
def cname : AnyChannel → Option String
  | text s => s.name
  | voice s => s.name
  | category s => s.name
  | forum s => s.name

/-- `channel._patch(data)` dispatched on the concrete class. -/
def patch : AnyChannel → ChannelPayload → AnyChannel
  | text s, d => text (s.patchText d)
  | voice s, d => voice (s.patch d)
  | category s, d => category (s.patch d)
  | forum s, d => forum (s.patch d)

/-- The `channel.rawPosition = partialChannel.position` assignment of
`GuildChannelsPositionUpdate`. -/
def setRawPosition : AnyChannel → Option Int → AnyChannel
  | text s, p => text { s with rawPosition := p }
  | voice s, p => voice { s with rawPosition := p }
  | category s, p => category { s with rawPosition := p }
  | forum s, p => forum { s with rawPosition := p }

end AnyChannel

/-- `Channel.create`: the type-discriminant dispatch to a concrete class
constructor for a channel carrying a guild. DM channels (no guild) and the
unknown discriminants build nothing; the thread discriminants, whose
`ThreadChannel` construction is not embedded here, are also left out. -/
def Channel.create (guild : Option String) (data : ChannelPayload) : Option AnyChannel :=
  match jval data.ctype with
  | some 0 => some (.text (ChannelState.make guild data))
  | some 5 => some (.text (ChannelState.make guild data))
  | some 2 => some (.voice (VoiceChannelState.make guild data))
  | some 13 => some (.voice (VoiceChannelState.make guild data))
  | some 4 => some (.category (CategoryChannelState.make guild data))
  | some 15 => some (.forum (ForumChannelState.make guild data))
  | _ => none

namespace Permissions

/-- Modelled from the spec: the flag table of the Permissions bitfield utility
(`src/util/Permissions.js` is not among the provided sources); bit positions
follow the wire protocol. Only the flags the claims mention are named; the
defined flags occupy bits 0 through 40. -/
def ADMINISTRATOR : Nat := 8

/-- `VIEW_CHANNEL`, bit 10. -/
def VIEW_CHANNEL : Nat := 1024

/-- `SEND_MESSAGES`, bit 11. -/
def SEND_MESSAGES : Nat := 2048

/-- `Permissions.ALL`: the bitwise OR of every defined flag. -/
def ALL : Nat := 2 ^ 41 - 1

/-- `Permissions.defaultBit`. -/
def defaultBit : Nat := 0

/-- Whether the bitfield contains all bits of `flag`. -/
def hasBit (b flag : Nat) : Bool := b &&& flag == flag

/-- Modelled from the spec: `Permissions#has(flag, checkAdmin)` — when the
override parameter is set and the all-powerful `ADMINISTRATOR` flag is
present, the check short-circuits to true regardless of the flag queried;
otherwise only the literal flag bits decide. -/
def has (b flag : Nat) (checkAdmin : Bool) : Bool :=
  (checkAdmin && hasBit b ADMINISTRATOR) || hasBit b flag

/-- `BitField#add` on resolved bits (value semantics; the frozen wrappers the
entities store are immutable). -/
def addBits (b m : Nat) : Nat := b ||| m

/-- `BitField#remove` on resolved bits: clear every bit of `m`. -/
def removeBits (b m : Nat) : Nat := b.ldiff m

end Permissions

/-- `channel.permissionOverwrites.resolve(key)` over the raw overwrite cache:
first entry whose id equals the key. -/
def ovResolve (ovCache : List RawOverwrite) (key : Option String) : Option RawOverwrite :=
  ovCache.find? (fun o => o.id == key)

/-- `overwrite.deny ?? Permissions.defaultBit` of an optional overwrite. -/
def ovDeny (o : Option RawOverwrite) : Nat := (o.bind (fun x => x.deny)).getD 0

/-- `overwrite.allow ?? Permissions.defaultBit` of an optional overwrite. -/
def ovAllow (o : Option RawOverwrite) : Nat := (o.bind (fun x => x.allow)).getD 0

/-- `GuildChannel#rolePermissions(role, checkAdmin)`: all permissions when the
override check is on and the role has `ADMINISTRATOR`; otherwise the role's
permissions with the everyone and role overwrites applied. -/
def GuildChannel.rolePermissions (guildId : Option String) (ovCache : List RawOverwrite)
    (roleId : Option String) (rolePerms : Nat) (checkAdmin : Bool) : Nat :=
  if checkAdmin && Permissions.has rolePerms Permissions.ADMINISTRATOR true then
    Permissions.ALL
  else
    let everyoneOverwrites := ovResolve ovCache guildId
    let roleOverwrites := ovResolve ovCache roleId
    Permissions.addBits
      (Permissions.removeBits
        (Permissions.addBits
          (Permissions.removeBits rolePerms (ovDeny everyoneOverwrites))
          (ovAllow everyoneOverwrites))
        (ovDeny roleOverwrites))
      (ovAllow roleOverwrites)

/-- The classification `GuildChannel#overwritesFor` computes: the everyone
overwrite (id equal to the guild id), the overwrites of the member's roles,
and the member's own overwrite. -/
structure OverwritesFor where
  everyone : Option RawOverwrite := none
  roles : List RawOverwrite := []
  member : Option RawOverwrite := none

/-- `GuildChannel#overwritesFor(member)` given the member's role-id set. -/
def GuildChannel.overwritesFor (guildId memberId : Option String)
    (memberRoleIds : List String) (ovCache : List RawOverwrite) : OverwritesFor :=
  ovCache.foldl
    (fun acc o =>
      if o.id == guildId then { acc with everyone := some o }
      else if (match o.id with
               | some k => memberRoleIds.contains k
               | none => false) then { acc with roles := acc.roles ++ [o] }
      else if o.id == memberId then { acc with member := some o }
      else acc)
    {}

/-- `GuildChannel#memberPermissions(member, checkAdmin)`: all permissions for
the guild owner or an administrator when the override check is on; otherwise
the union of the member's role permissions with the everyone, role and member
overwrites applied in that order. -/
def GuildChannel.memberPermissions (guildId ownerId memberId : Option String)
    (memberRoles : List (String × Nat)) (ovCache : List RawOverwrite)
    (checkAdmin : Bool) : Nat :=
  if checkAdmin && memberId == ownerId then Permissions.ALL
  else
    let permissions := memberRoles.foldl (fun acc r => acc ||| r.2) 0
    if checkAdmin && Permissions.has permissions Permissions.ADMINISTRATOR true then
      Permissions.ALL
    else
      let overwrites := GuildChannel.overwritesFor guildId memberId (memberRoles.map (fun r => r.1)) ovCache
      let rolesDeny := if overwrites.roles.length > 0 then
          overwrites.roles.foldl (fun acc o => acc ||| ovDeny (some o)) 0
        else Permissions.defaultBit
      let rolesAllow := if overwrites.roles.length > 0 then
          overwrites.roles.foldl (fun acc o => acc ||| ovAllow (some o)) 0
        else Permissions.defaultBit
      Permissions.addBits
        (Permissions.removeBits
          (Permissions.addBits
            (Permissions.removeBits
              (Permissions.addBits
                (Permissions.removeBits permissions (ovDeny overwrites.everyone))
                (ovAllow overwrites.everyone))
              rolesDeny)
            rolesAllow)
          (ovDeny overwrites.member))
        (ovAllow overwrites.member)

/-- `cache.delete(k)`: drop the entry with key `k`, if any. -/
def cacheDelete {K V : Type} [DecidableEq K] (c : Cache K V) (k : K) : Cache K V :=
  match c with
  | [] => []
  | (k', v) :: rest => if k' = k then rest else (k', v) :: cacheDelete rest k

/-- `GuildChannelManager._add(channel)` at the reference level: the manager
receives an already-constructed channel instance (a reference into `heap`),
resolves its id against the cache (`CachedManager#resolve` is a plain cache
hit per the spec), returns the cached existing instance when there is one, and
otherwise inserts and returns the argument. The channel object itself is never
written. -/
def GuildChannelManager.addInstance (heap : List ChannelState)
    (cache : Cache (Option String) Nat) (r : Nat) : Cache (Option String) Nat × Nat :=
  let cid := (heap.get? r).bind (fun c => c.id)
  match cacheGet cache cid with
  | some existing => (cache, existing)
  | none => (cacheSet cache cid r, r)

/-- Modelled from the spec: the generic `CachedManager#_add` used by
`RoleManager._add` (`src/managers/CachedManager.js` is not among the provided
sources): construct a new entity from the payload and insert it keyed by its
id, or patch the existing entry in place; a payload without an id fails with
`MalformedPayload` and leaves the cache untouched. -/
def RoleManager.addData (cache : Cache String RoleState) (data : RolePayload) :
    Cache String RoleState :=
  match jval data.id with
  | none => cache
  | some k =>
    match cacheGet cache k with
    | some existing => cacheSet cache k (existing.patch data)
    | none => cacheSet cache k (RoleState.make (some data))

/-- Modelled from the spec: `VoiceStateManager#_add` (not among the provided
sources) as the generic construct-or-patch keyed by `user_id`, with the
`VoiceState` construction and patch taken from the provided source. -/
def VoiceStateManager.addData (cache : Cache String VoiceState) (data : VoiceStatePayload) :
    Cache String VoiceState :=
  match jval data.user_id with
  | none => cache
  | some k =>
    match cacheGet cache k with
    | some existing => cacheSet cache k (existing.patch data)
    | none => cacheSet cache k (VoiceState.make data)

/-- An opaque payload entry for the managers whose entity classes are not
embedded (members, presences, stage instances, scheduled events): the identity
the manager keys on plus the remaining fields, carried uninterpreted. -/
structure RawEntity where
  id : Option String := none
  fields : List (String × String) := []
deriving Repr, DecidableEq

/-- Modelled from the spec: the generic `CachedManager#_add` for the managers
whose entity classes are not among the provided sources: keyed
insert-or-patch by the payload identity; with opaque entries the patch is
rendered as replacement, and an entry without an identity fails with
`MalformedPayload` and leaves the cache untouched. -/
def rawAdd (cache : Cache String RawEntity) (e : RawEntity) : Cache String RawEntity :=
  match e.id with
  | none => cache
  | some k => cacheSet cache k e

/-- Modelled from the spec: the client-level `ChannelManager#_add`
(not among the provided sources) in the value model, as called by
`Guild._patch` for each raw channel: on a client-cache hit the existing
instance is patched with the payload and handed to the present
`GuildChannelManager._add`; since the real patch mutates the shared instance
in place, every cache slot holding it observes the patched state, which the
value model renders by writing the patched value to both caches. On a miss,
`Channel.create` builds the channel, inserts it into the guild-level cache
itself, and the client cache stores it; an unconstructible payload builds and
inserts nothing. Returns the updated client and guild channel caches. -/
def ChannelManager.addData (guildId : Option String)
    (client : Cache (Option String) AnyChannel) (gch : Cache (Option String) AnyChannel)
    (data : ChannelPayload) :
    Cache (Option String) AnyChannel × Cache (Option String) AnyChannel :=
  match cacheGet client (jval data.id) with
  | some existing =>
    let e := existing.patch data
    (cacheSet client (jval data.id) e, cacheSet gch e.cid e)
  | none =>
    match Channel.create guildId data with
    | some c => (cacheSet client c.cid c, cacheSet gch c.cid c)
    | none => (client, gch)

/-- The caches of one guild that `Guild._patch` rebuilds from snapshot
payloads, plus the `ownerId` scalar patched in the same region. -/
structure GuildCaches where
  channels : Cache (Option String) AnyChannel := []
  roles : Cache String RoleState := []
  members : Cache String RawEntity := []
  presences : Cache String RawEntity := []
  stageInstances : Cache String RawEntity := []
  scheduledEvents : Cache String RawEntity := []
  voiceStates : Cache String VoiceState := []
  ownerId : Option String := none
deriving Repr, DecidableEq

/-- The collection-valued part of a guild wire payload. -/
structure GuildPayload where
  id : JKey String := none
  channels : Option (List ChannelPayload) := none
  threads : Option (List ChannelPayload) := none
  roles : Option (List RolePayload) := none
  members : Option (List RawEntity) := none
  owner_id : JKey String := none
  presences : Option (List RawEntity) := none
  stage_instances : Option (List RawEntity) := none
  guild_scheduled_events : Option (List RawEntity) := none
  voice_states : Option (List VoiceStatePayload) := none
deriving Repr, DecidableEq

/-- One `this.client.channels._add(rawChannel, this)` step as it threads the
client and guild channel caches. -/
def Guild.chanAddStep (guildId : Option String)
    (acc : Cache (Option String) AnyChannel × Cache (Option String) AnyChannel)
    (raw : ChannelPayload) :
    Cache (Option String) AnyChannel × Cache (Option String) AnyChannel :=
  ChannelManager.addData guildId acc.1 acc.2 raw

/-- The collection-rebuilding region of `Guild._patch` (the truthiness-guarded
`channels`, `threads`, `roles`, `members`, `owner_id`, `presences`,
`stage_instances`, `guild_scheduled_events` and `voice_states` blocks): each
snapshot collection key clears the corresponding manager cache and rebuilds it
from the payload entries; `threads` and `presences` add without clearing, and
the presence additions are gated on the `handlePresenceUpdates` client option.
The scalar region above it and the emoji and sticker blocks below it (which
route through separate update actions) are outside this embedding. Returns the
updated client channel cache and guild caches. -/
def Guild.patchCollections (handlePresenceUpdates : Bool)
    (client : Cache (Option String) AnyChannel) (g : GuildCaches) (data : GuildPayload) :
    Cache (Option String) AnyChannel × GuildCaches :=
  let gid := jval data.id
  let chanStage := match data.channels with
    | some l => l.foldl (Guild.chanAddStep gid) (client, [])
    | none => (client, g.channels)
  let threadStage := match data.threads with
    | some l => l.foldl (Guild.chanAddStep gid) chanStage
    | none => chanStage
  (threadStage.1,
   { channels := threadStage.2
     roles := match data.roles with
       | some l => l.foldl RoleManager.addData []
       | none => g.roles
     members := match data.members with
       | some l => l.foldl rawAdd []
       | none => g.members
     ownerId := jupd data.owner_id g.ownerId
     presences :=
       if handlePresenceUpdates then
         match data.presences with
         | some l => l.foldl rawAdd g.presences
         | none => g.presences
       else g.presences
     stageInstances := match data.stage_instances with
       | some l => l.foldl rawAdd []
       | none => g.stageInstances
     scheduledEvents := match data.guild_scheduled_events with
       | some l => l.foldl rawAdd []
       | none => g.scheduledEvents
     voiceStates := match data.voice_states with
       | some l => l.foldl VoiceStateManager.addData []
       | none => g.voiceStates })

/-- The scalar face of a guild wire payload that the `GuildDelete` path and
the guild availability logic read. -/
structure GuildWire where
  id : JKey String := none
  name : JKey String := none
  unavailable : JKey Bool := none
deriving Repr, DecidableEq

/-- The fields of a cached `Guild` instance that the deletion claims observe;
`deleted` is set to false by the constructor and `available` starts unset. -/
structure GuildObj where
  id : Option String := none
  name : Option String := none
  available : Option Bool := none
  deleted : Bool := false
deriving Repr, DecidableEq

namespace GuildObj

/-- `Guild._patch` restricted to the observed fields: unconditional id,
guarded name, and `available` derived from the guarded `unavailable` key with
its `??= true` fallback. -/
def patch (g : GuildObj) (data : GuildWire) : GuildObj :=
  { g with
    id := jval data.id
    name := jupd data.name g.name
    available := match data.unavailable with
      | some v => some (!v.getD false)
      | none => some (g.available.getD true) }

/-- The `Guild` constructor on the observed fields: `deleted = false`, then
either `available = false` for an unavailable payload or `this._patch(data)`. -/
def make (data : GuildWire) : GuildObj :=
  let init : GuildObj := { deleted := false }
  if (jval data.unavailable).getD false then { init with available := some false }
  else patch init data

end GuildObj

/-- `GuildDeleteAction.handle` (the synchronous part): resolve the guild by
the payload id; an unavailable payload only flips the instance's `available`
flag and reports no deletion; otherwise the cache entry is deleted and the
(still-referenced) instance is returned untouched. The 10-second deferred
`handleDeletedServer` cleanup of the guild's sub-caches runs on a timer and
through the client channel manager's `_remove`, both outside this embedding.
Returns the heap, the cache, and the `guild` field of the result shape. -/
def GuildDeleteAction.handle (heap : List GuildObj) (cache : Cache (Option String) Nat)
    (data : GuildWire) : List GuildObj × Cache (Option String) Nat × Option Nat :=
  match cacheGet cache (jval data.id) with
  | some r =>
    if (jval data.unavailable).getD false then
      let heap := heap.set r
        (match heap.get? r with
         | some g => { g with available := some false }
         | none => { deleted := false })
      (heap, cache, none)
    else
      let gid := (heap.get? r).bind (fun g => g.id)
      (heap, cacheDelete cache gid, some r)
  | none => (heap, cache, none)

/-- One entry of a roles- or channels-position-update payload. -/
structure PosEntry where
  id : Option String := none
  position : Option Int := none
deriving Repr, DecidableEq

/-- The shared loop body of the two position-update handlers: resolve the
partial entity in the cache (a plain cache hit) and assign `rawPosition` from
the payload through `upd`; unresolved ids are skipped silently. -/
def posApplyStep {K V : Type} [DecidableEq K] (upd : V → Option Int → V)
    (keyOf : PosEntry → Option K) (c : Cache K V) (e : PosEntry) : Cache K V :=
  match keyOf e with
  | some k =>
    match cacheGet c k with
    | some v => cacheSet c k (upd v e.position)
    | none => c
  | none => c

/-- The loop of a position-update handler over all payload entries. -/
def posApply {K V : Type} [DecidableEq K] (upd : V → Option Int → V)
    (keyOf : PosEntry → Option K) (c : Cache K V) (entries : List PosEntry) : Cache K V :=
  entries.foldl (posApplyStep upd keyOf) c

/-- The `role.rawPosition = partialRole.position` assignment of
`GuildRolesPositionUpdate`. -/
def roleSetRawPosition (r : RoleState) (p : Option Int) : RoleState :=
  { r with rawPosition := p }

/-- The loop body of `GuildRolesPositionUpdate.handle`: for each partial role,
`guild.roles.resolve(partialRole.id)` and, on a hit,
`role.rawPosition = partialRole.position`. -/
def rolesPositionApply (cache : Cache String RoleState) (entries : List PosEntry) :
    Cache String RoleState :=
  posApply roleSetRawPosition (fun e => e.id) cache entries

/-- `GuildRolesPositionUpdate.handle`: resolve the guild, then apply the
per-role raw-position assignments; an unresolved guild leaves everything
unchanged. -/
def GuildRolesPositionUpdate.handle (guilds : Cache String (Cache String RoleState))
    (guild_id : Option String) (roles : List PosEntry) :
    Cache String (Cache String RoleState) :=
  match guild_id with
  | some gid =>
    match cacheGet guilds gid with
    | some rc => cacheSet guilds gid (rolesPositionApply rc roles)
    | none => guilds
  | none => guilds

/-- The loop body of `GuildChannelsPositionUpdate.handle`: for each partial
channel, `guild.channels.resolve(partialChannel.id)` (the channel cache is
keyed by the possibly-undefined channel id, so the lookup key is the raw
`partialChannel.id`) and, on a hit,
`channel.rawPosition = partialChannel.position`. -/
def channelsPositionApply (cache : Cache (Option String) AnyChannel) (entries : List PosEntry) :
    Cache (Option String) AnyChannel :=
  posApply AnyChannel.setRawPosition (fun e => some e.id) cache entries

/-- `GuildChannelsPositionUpdate.handle`: resolve the guild, then apply the
per-channel raw-position assignments; an unresolved guild leaves everything
unchanged. -/
def GuildChannelsPositionUpdate.handle
    (guilds : Cache String (Cache (Option String) AnyChannel))
    (guild_id : Option String) (channels : List PosEntry) :
    Cache String (Cache (Option String) AnyChannel) :=
  match guild_id with
  | some gid =>
    match cacheGet guilds gid with
    | some cc => cacheSet guilds gid (channelsPositionApply cc channels)
    | none => guilds
  | none => guilds

/-- `RoleManager#edit` from the point the REST collaborator has answered with
`d`: the role was resolved up front (an unresolvable argument fails with
`INVALID_TYPE` before any request), then the method clones the cached role
(`Base#_clone` is a shallow copy, which the value model renders as the value
itself), patches the clone with the response, and returns the clone; the
cache is not written and no action handler runs. -/
def RoleManager.edit (cache : Cache String RoleState) (roleId : Option String)
    (d : RolePayload) : Except String (Cache String RoleState × RoleState) :=
  match roleId with
  | none => Except.error "INVALID_TYPE"
  | some rid =>
    match cacheGet cache rid with
    | none => Except.error "INVALID_TYPE"
    | some role => Except.ok (cache, role.patch d)

/-! Concrete inputs used by the scenario claims and witnesses. -/

/-- The partial-update scenario's construction payload. -/
def scenarioChannelCreate : ChannelPayload :=
  { id := some (some "1"), ctype := some (some 0), name := some (some "general"),
    nsfw := some (some false) }

/-- The partial-update scenario's patch payload. -/
def scenarioChannelPatch : ChannelPayload :=
  { id := some (some "1"), topic := some (some "hi") }

/-- The channel the partial-update scenario constructs. -/
def scenarioChannel0 : ChannelState := ChannelState.make none scenarioChannelCreate

/-- The guild-snapshot scenario's payload. -/
def scenarioGuildPayload : GuildPayload :=
  { id := some (some "g")
    channels := some [{ id := some (some "1"), ctype := some (some 0),
                        name := some (some "general") }]
    roles := some [{ id := some (some "10"), name := some (some "@everyone"),
                     position := some (some 0), permissions := some (some 104324673) }] }

/-- A role with the lower snowflake of a raw-ordinal tie. -/
def roleTieA : RoleState := { id := some "1", rawPosition := some 0 }

/-- A role with the higher snowflake of a raw-ordinal tie. -/
def roleTieB : RoleState := { id := some "2", rawPosition := some 0 }

/-- A text channel with the lower snowflake of a raw-ordinal tie. -/
def chanTieA : ChannelState := { ctype := "GUILD_TEXT", id := some "1", rawPosition := some 0 }

/-- A text channel with the higher snowflake of a raw-ordinal tie. -/
def chanTieB : ChannelState := { ctype := "GUILD_TEXT", id := some "2", rawPosition := some 0 }

/-- A news channel tying on raw ordinal with `chanTieA`: a different type in
the same sortable group. -/
def chanTieNews : ChannelState := { ctype := "GUILD_NEWS", id := some "2", rawPosition := some 0 }

/-- A channel instance as first constructed (the one a manager caches). -/
def chanInstA : ChannelState := { id := some "1", name := some "a", rawPosition := some 1 }

/-- A second channel instance with the same id and different field values. -/
def chanInstB : ChannelState := { id := some "1", name := some "b", rawPosition := some 2 }

/-! Helper lemmas about the combinators of the embedding. -/

@[simp]
theorem jupd_none {A : Type} (old : Option A) : jupd none old = old := rfl

@[simp]
theorem jupd_some {A : Type} (v : Option A) (old : Option A) : jupd (some v) old = v := rfl

@[simp]
theorem lupd_none {A : Type} (old : A) : lupd none old = old := rfl

@[simp]
theorem lupd_some {A : Type} (v old : A) : lupd (some v) old = v := rfl

@[simp]
theorem jval_none {A : Type} : jval (none : JKey A) = none := rfl

@[simp]
theorem jval_some {A : Type} (v : Option A) : jval (some v) = v := rfl

/-- A guarded update applied twice is the guarded update of the key-wise
union (later key winning). -/
@[simp]
theorem jupd_jupd {A : Type} (k1 k2 : JKey A) (old : Option A) :
    jupd k2 (jupd k1 old) = jupd (k2 <|> k1) old := by
  cases k2 <;> cases k1 <;> rfl

/-- A guarded replacement applied twice is the replacement of the key-wise
union (later key winning). -/
@[simp]
theorem lupd_lupd {A : Type} (k1 k2 : Option A) (old : A) :
    lupd k2 (lupd k1 old) = lupd (k2 <|> k1) old := by
  cases k2 <;> cases k1 <;> rfl

/-- The unconditional `this.id = data.id` applied twice keeps the later
payload's value, which agrees with the union when the first payload lacks the
key. -/
theorem jval_union_of_left_none {A : Type} (k1 k2 : JKey A) (h : k1 = none) :
    jval k2 = jval (k2 <|> k1) := by
  subst h
  cases k2 <;> rfl

@[simp]
theorem cacheGet_cacheSet_self {K V : Type} [DecidableEq K] (c : Cache K V) (k : K) (v : V) :
    cacheGet (cacheSet c k v) k = some v := by
  induction c with
  | nil => simp [cacheSet, cacheGet]
  | cons hd tl ih =>
    by_cases h : hd.1 = k <;> simp [cacheSet, cacheGet, h, ih]

theorem cacheGet_cacheSet_ne {K V : Type} [DecidableEq K] (c : Cache K V) (k k' : K) (v : V)
    (h : k' ≠ k) : cacheGet (cacheSet c k v) k' = cacheGet c k' := by
  induction c with
  | nil => simp [cacheSet, cacheGet, Ne.symm h]
  | cons hd tl ih =>
    by_cases hh : hd.1 = k
    · subst hh
      simp [cacheSet, cacheGet, Ne.symm h]
    · by_cases hk : hd.1 = k' <;> simp [cacheSet, cacheGet, hh, hk, ih, h]

/-- Setting a key that is already present keeps the key list unchanged. -/
theorem cacheSet_keys_of_get {K V : Type} [DecidableEq K] (c : Cache K V) (k : K) (v w : V)
    (h : cacheGet c k = some w) : (cacheSet c k v).map Prod.fst = c.map Prod.fst := by
  induction c with
  | nil => simp [cacheGet] at h
  | cons hd tl ih =>
    by_cases hh : hd.1 = k
    · simp [cacheSet, hh]
    · simp only [cacheGet] at h
      rw [if_neg hh] at h
      simp [cacheSet, hh, ih h]

/-- The keys of a cache are pairwise distinct; `cacheSet` and `cacheDelete`
maintain this, and every cache the embedding builds satisfies it. -/
def CacheWF {K V : Type} (c : Cache K V) : Prop := (c.map Prod.fst).Nodup

theorem cacheGet_eq_none_of_not_mem {K V : Type} [DecidableEq K] (c : Cache K V) (k : K)
    (h : k ∉ c.map Prod.fst) : cacheGet c k = none := by
  induction c with
  | nil => rfl
  | cons hd tl ih =>
    rw [List.map_cons, List.mem_cons] at h
    push_neg at h
    simp [cacheGet, Ne.symm h.1, ih h.2]

/-- Deleting a key from a well-formed cache makes lookups of that key miss. -/
theorem cacheGet_cacheDelete_self {K V : Type} [DecidableEq K] (c : Cache K V) (k : K)
    (wf : CacheWF c) : cacheGet (cacheDelete c k) k = none := by
  induction c with
  | nil => rfl
  | cons hd tl ih =>
    rw [CacheWF, List.map_cons, List.nodup_cons] at wf
    obtain ⟨hnot, hnd⟩ := wf
    by_cases hh : hd.1 = k
    · subst hh
      simpa [cacheDelete] using cacheGet_eq_none_of_not_mem tl hd.1 hnot
    · simp only [cacheDelete]
      rw [if_neg hh]
      simp only [cacheGet]
      rw [if_neg hh]
      exact ih hnd

/-- Counting with a pointwise-weaker predicate that misses some listed element
the stronger one hits is strictly smaller. -/
theorem countP_lt_of_witness {A : Type} (l : List A) (p q : A → Bool)
    (hpq : ∀ x ∈ l, p x = true → q x = true) (b : A) (hb : b ∈ l)
    (hqb : q b = true) (hpb : p b = false) : l.countP p < l.countP q := by
  induction l with
  | nil => cases hb
  | cons hd tl ih =>
    rw [List.countP_cons, List.countP_cons]
    rcases List.mem_cons.mp hb with hbh | hbt
    · subst hbh
      have hmono : tl.countP p ≤ tl.countP q :=
        List.countP_mono_left (fun x hx => hpq x (List.mem_cons_of_mem _ hx))
      have h1 : (if p b = true then 1 else 0) = 0 := by simp [hpb]
      have h2 : (if q b = true then 1 else 0) = 1 := by simp [hqb]
      omega
    · have hlt : tl.countP p < tl.countP q :=
        ih (fun x hx => hpq x (List.mem_cons_of_mem _ hx)) hbt
      rcases hph : p hd with _ | _
      · rcases hqh : q hd with _ | _
        · simpa using hlt
        · simp
          omega
      · have hqh := hpq hd (List.mem_cons_self _ _) hph
        rw [hqh]
        simp
        omega

/-- Every channel type belongs to its own sortable group. -/
theorem mem_own_sortable_group (t : String) : (getSortableGroupTypes t).contains t = true := by
  unfold getSortableGroupTypes
  split <;> simp_all [List.contains]

/-- Two channel types sharing a sortable group agree on being the category
type: the category group holds no other type, and no other group holds the
category type. -/
theorem sortable_group_eq_category_iff (t1 t2 : String)
    (h : getSortableGroupTypes t1 = getSortableGroupTypes t2) :
    t1 = "GUILD_CATEGORY" ↔ t2 = "GUILD_CATEGORY" := by
  unfold getSortableGroupTypes at h
  split at h <;> split at h <;> simp_all

/-- The position the last payload entry with key `k` carries, if any (a later
entry overwrites an earlier one). -/
def lastPos {K : Type} [DecidableEq K] (keyOf : PosEntry → Option K)
    (entries : List PosEntry) (k : K) : Option (Option Int) :=
  match entries with
  | [] => none
  | e :: rest =>
    match lastPos keyOf rest k with
    | some p => some p
    | none => if keyOf e = some k then some e.position else none

theorem posApplyStep_get {K V : Type} [DecidableEq K] (upd : V → Option Int → V)
    (keyOf : PosEntry → Option K) (c : Cache K V) (e : PosEntry) (k : K) :
    cacheGet (posApplyStep upd keyOf c e) k =
      if keyOf e = some k then
        (match cacheGet c k with
         | some v => some (upd v e.position)
         | none => none)
      else cacheGet c k := by
  by_cases hke : keyOf e = some k
  · rw [if_pos hke]
    rcases hc : cacheGet c k with _ | v
    · simp [posApplyStep, hke, hc]
    · simp [posApplyStep, hke, hc, cacheGet_cacheSet_self]
  · rw [if_neg hke]
    rcases hk : keyOf e with _ | k0
    · simp [posApplyStep, hk]
    · have hkk : k0 ≠ k := by
        intro h
        exact hke (by rw [hk, h])
      rcases hc : cacheGet c k0 with _ | v
      · simp [posApplyStep, hk, hc]
      · simp [posApplyStep, hk, hc, cacheGet_cacheSet_ne c k0 k _ (Ne.symm hkk)]

theorem posApplyStep_keys {K V : Type} [DecidableEq K] (upd : V → Option Int → V)
    (keyOf : PosEntry → Option K) (c : Cache K V) (e : PosEntry) :
    (posApplyStep upd keyOf c e).map Prod.fst = c.map Prod.fst := by
  rcases hk : keyOf e with _ | k0
  · simp [posApplyStep, hk]
  · rcases hc : cacheGet c k0 with _ | v
    · simp [posApplyStep, hk, hc]
    · simp only [posApplyStep, hk, hc]
      exact cacheSet_keys_of_get c k0 _ v hc

/-- A position-update loop never inserts or removes cache entries. -/
theorem posApply_keys {K V : Type} [DecidableEq K] (upd : V → Option Int → V)
    (keyOf : PosEntry → Option K) (entries : List PosEntry) (c : Cache K V) :
    (posApply upd keyOf c entries).map Prod.fst = c.map Prod.fst := by
  induction entries generalizing c with
  | nil => rfl
  | cons e rest ih =>
    calc (posApply upd keyOf (posApplyStep upd keyOf c e) rest).map Prod.fst
        = (posApplyStep upd keyOf c e).map Prod.fst := ih _
      _ = c.map Prod.fst := posApplyStep_keys upd keyOf c e

/-- The specified read-back of a position-update loop: the cached value with
`upd` applied for the last payload occurrence of the key, the unchanged
cached value otherwise. -/
def posSpec {K V : Type} [DecidableEq K] (upd : V → Option Int → V)
    (keyOf : PosEntry → Option K) (entries : List PosEntry) (c : Cache K V) (k : K) :
    Option V :=
  match lastPos keyOf entries k, cacheGet c k with
  | some pos, some v => some (upd v pos)
  | _, _ => cacheGet c k

/-- Full characterization of a position-update loop: an entry whose key
appears in the payload gets `upd` applied for the last occurrence, every
other entry and every unmatched payload id changes nothing. Requires the
update to be overwrite-idempotent, which the raw-position assignment is. -/
theorem posApply_get {K V : Type} [DecidableEq K] (upd : V → Option Int → V)
    (keyOf : PosEntry → Option K) (entries : List PosEntry) (c : Cache K V) (k : K)
    (hupd : ∀ v p p', upd (upd v p) p' = upd v p') :
    cacheGet (posApply upd keyOf c entries) k = posSpec upd keyOf entries c k := by
  induction entries generalizing c with
  | nil => rcases hc : cacheGet c k with _ | v <;> simp [posApply, posSpec, lastPos, hc]
  | cons e rest ih =>
    rw [show posApply upd keyOf c (e :: rest) = posApply upd keyOf (posApplyStep upd keyOf c e) rest from rfl]
    rw [ih (posApplyStep upd keyOf c e)]
    unfold posSpec
    rw [posApplyStep_get upd keyOf c e k]
    rcases hl : lastPos keyOf rest k with _ | p
    · by_cases hke : keyOf e = some k
      · rw [if_pos hke]
        simp only [lastPos, hl, hke, if_pos rfl]
        rcases hc : cacheGet c k with _ | v <;> simp [hc]
      · rw [if_neg hke]
        simp only [lastPos, hl, if_neg hke]
    · simp only [lastPos, hl]
      by_cases hke : keyOf e = some k
      · rw [if_pos hke]
        rcases hc : cacheGet c k with _ | v
        · simp [hc]
        · simp [hc, hupd]
      · rw [if_neg hke]

/-! The claim theorems. -/

/-- C1, counterexample: the channel of the partial-update scenario holds a
prior id value, yet a patch payload lacking the id key clobbers it to
undefined, because `Channel._patch` assigns `this.id = data.id`
unconditionally — so not every field with a prior value survives a payload
that omits its key. -/
theorem C1_counterexample :
    scenarioChannel0.id = some "1" ∧
    (ChannelState.patchText scenarioChannel0 { topic := some (some "hi") }).id = none :=
  ⟨rfl, rfl⟩

/-- C1 (amended): on a text-based guild channel, every key-guarded field whose
key is absent from the patch payload keeps its prior value, and the
constructor-only fields are never written by a patch; the `id` field however
is assigned unconditionally from the payload, so it is retained only when the
payload carries it. The partial-update scenario holds as stated: constructing
from id 1, name general, nsfw false and patching with id 1, topic hi yields
name general, nsfw false, topic hi. -/
theorem C1_patch_retention (s : ChannelState) (p : ChannelPayload) :
    (ChannelState.patchText s p).ctype = s.ctype ∧
    (ChannelState.patchText s p).deleted = s.deleted ∧
    (ChannelState.patchText s p).id = jval p.id ∧
    (p.flags = none → (ChannelState.patchText s p).flags = s.flags) ∧
    (p.name = none → (ChannelState.patchText s p).name = s.name) ∧
    (p.position = none → (ChannelState.patchText s p).rawPosition = s.rawPosition) ∧
    (p.guild_id = none → (ChannelState.patchText s p).guildId = s.guildId) ∧
    (p.parent_id = none → (ChannelState.patchText s p).parentId = s.parentId) ∧
    (p.permission_overwrites = none → (ChannelState.patchText s p).overwrites = s.overwrites) ∧
    (p.topic = none → (ChannelState.patchText s p).topic = s.topic) ∧
    (p.nsfw = none → (ChannelState.patchText s p).nsfw = s.nsfw) ∧
    (p.default_auto_archive_duration = none →
      (ChannelState.patchText s p).defaultAutoArchiveDuration = s.defaultAutoArchiveDuration) ∧
    (p.default_thread_rate_limit_per_user = none →
      (ChannelState.patchText s p).defaultThreadRateLimitPerUser = s.defaultThreadRateLimitPerUser) ∧
    (p.messages = none → (ChannelState.patchText s p).messages = s.messages) ∧
    (ChannelState.patchText scenarioChannel0 scenarioChannelPatch).name = some "general" ∧
    (ChannelState.patchText scenarioChannel0 scenarioChannelPatch).nsfw = false ∧
    (ChannelState.patchText scenarioChannel0 scenarioChannelPatch).topic = some "hi" := by
  refine ⟨rfl, rfl, rfl, ?_, ?_, ?_, ?_, ?_, ?_, ?_, ?_, ?_, ?_, ?_, rfl, rfl, rfl⟩ <;>
    intro h <;>
    simp [ChannelState.patchText, ChannelState.patchGuildChannel, ChannelState.patchChannel, h]

/-- C1 witness: the amended retention theorem applied to the scenario
channel and the scenario patch payload (which lacks the name and nsfw keys). -/
theorem C1_patch_retention_witness :
    (ChannelState.patchText scenarioChannel0 scenarioChannelPatch).name = scenarioChannel0.name ∧
    (ChannelState.patchText scenarioChannel0 scenarioChannelPatch).nsfw = scenarioChannel0.nsfw := by
  obtain ⟨-, -, -, -, hname, -, -, -, -, -, hnsfw, -, -, -, -, -, -⟩ :=
    C1_patch_retention scenarioChannel0 scenarioChannelPatch
  exact ⟨hname rfl, hnsfw rfl⟩

/-- C9 (confirmed): `VoiceState._patch` assigns `streaming` (from
`self_stream`, defaulting to false) exactly when the payload carries the
`self_video` key; a payload with `self_stream` but without `self_video`
leaves `streaming` unchanged, and a first construction without `self_video`
initializes it to null. -/
theorem C9_streaming_gating :
    (∀ (s : VoiceState) (p : VoiceStatePayload) (v : Option Bool), p.self_video = some v →
      (VoiceState.patch s p).streaming = some ((jval p.self_stream).getD false)) ∧
    (∀ (s : VoiceState) (p : VoiceStatePayload), p.self_video = none →
      (VoiceState.patch s p).streaming = s.streaming) ∧
    (∀ p : VoiceStatePayload, p.self_video = none → (VoiceState.make p).streaming = none) ∧
    (VoiceState.patch { streaming := some true } { self_stream := some (some false) }).streaming
      = some true := by
  refine ⟨?_, ?_, ?_, rfl⟩
  · intro s p v h
    simp [VoiceState.patch, h]
  · intro s p h
    simp [VoiceState.patch, h]
  · intro p h
    simp [VoiceState.make, VoiceState.patch, h]

/-- C9 witness: the gating theorem applied to concrete payloads carrying,
respectively, only `self_video` and only a user id. -/
theorem C9_streaming_gating_witness :
    (VoiceState.patch {} { self_video := some (some true) }).streaming = some false ∧
    (VoiceState.make { user_id := some (some "u") }).streaming = none := by
  constructor
  · exact C9_streaming_gating.1 {} { self_video := some (some true) } (some true) rfl
  · exact C9_streaming_gating.2.2.1 { user_id := some (some "u") } rfl

/-- C8 (confirmed): with the administrator-override check enabled, a
permission set containing `ADMINISTRATOR` makes `has` answer true for every
flag (and `rolePermissions` and `memberPermissions` grant all permissions);
with the override disabled, only the literal flag bits decide, so a set
holding only `ADMINISTRATOR` answers false for `SEND_MESSAGES` and for every
other single-bit flag. -/
theorem C8_admin_override :
    (∀ b flag : Nat, Permissions.hasBit b Permissions.ADMINISTRATOR = true →
      Permissions.has b flag true = true) ∧
    (∀ b flag : Nat, Permissions.has b flag false = Permissions.hasBit b flag) ∧
    (∀ (guildId roleId : Option String) (ovCache : List RawOverwrite) (rolePerms flag : Nat),
      Permissions.hasBit rolePerms Permissions.ADMINISTRATOR = true →
      Permissions.has (GuildChannel.rolePermissions guildId ovCache roleId rolePerms true) flag true
        = true) ∧
    (∀ (guildId ownerId memberId : Option String) (memberRoles : List (String × Nat))
        (ovCache : List RawOverwrite) (flag : Nat),
      Permissions.hasBit (memberRoles.foldl (fun acc r => acc ||| r.2) 0)
          Permissions.ADMINISTRATOR = true →
      Permissions.has
          (GuildChannel.memberPermissions guildId ownerId memberId memberRoles ovCache true)
          flag true = true) ∧
    Permissions.has Permissions.ADMINISTRATOR Permissions.SEND_MESSAGES true = true ∧
    Permissions.has Permissions.ADMINISTRATOR Permissions.SEND_MESSAGES false = false ∧
    (∀ k : Nat, k ≠ 3 → Permissions.has Permissions.ADMINISTRATOR (2 ^ k) false = false) := by
  have hAdmAll : Permissions.hasBit Permissions.ALL Permissions.ADMINISTRATOR = true := by decide
  refine ⟨?_, ?_, ?_, ?_, by decide, by decide, ?_⟩
  · intro b flag h
    simp [Permissions.has, h]
  · intro b flag
    simp [Permissions.has]
  · intro guildId roleId ovCache rolePerms flag h
    have hall : GuildChannel.rolePermissions guildId ovCache roleId rolePerms true
        = Permissions.ALL := by
      simp [GuildChannel.rolePermissions, Permissions.has, h]
    rw [hall]
    simp [Permissions.has, hAdmAll]
  · intro guildId ownerId memberId memberRoles ovCache flag h
    rcases hmo : memberId == ownerId with _ | _
    · have hall : GuildChannel.memberPermissions guildId ownerId memberId memberRoles ovCache true
          = Permissions.ALL := by
        simp [GuildChannel.memberPermissions, hmo, Permissions.has, h]
      rw [hall]
      simp [Permissions.has, hAdmAll]
    · have hall : GuildChannel.memberPermissions guildId ownerId memberId memberRoles ovCache true
          = Permissions.ALL := by
        simp [GuildChannel.memberPermissions, hmo]
      rw [hall]
      simp [Permissions.has, hAdmAll]
  · intro k hk
    match k, hk with
    | 0, _ => decide
    | 1, _ => decide
    | 2, _ => decide
    | 3, hk => exact absurd rfl hk
    | (k0 + 4), _ =>
      have h1 : (8 : Nat) &&& 2 ^ (k0 + 4) ≤ 8 := Nat.and_le_left
      have h2 : (16 : Nat) ≤ 2 ^ (k0 + 4) := by
        calc (16 : Nat) = 2 ^ 4 := by norm_num
          _ ≤ 2 ^ (k0 + 4) := Nat.pow_le_pow_right (by norm_num) (by omega)
      have hne : (8 : Nat) &&& 2 ^ (k0 + 4) ≠ 2 ^ (k0 + 4) := by omega
      simp only [Permissions.has, Permissions.hasBit, Permissions.ADMINISTRATOR,
        Bool.false_and, Bool.false_or]
      simpa using hne

/-- C8 witness: the override theorem applied to the scenario's concrete
bitfield holding only `ADMINISTRATOR` and the `SEND_MESSAGES` flag. -/
theorem C8_admin_override_witness :
    Permissions.has Permissions.ADMINISTRATOR Permissions.SEND_MESSAGES true = true ∧
    Permissions.has Permissions.ADMINISTRATOR (2 ^ 11) false = false := by
  constructor
  · exact C8_admin_override.1 Permissions.ADMINISTRATOR Permissions.SEND_MESSAGES (by decide)
  · exact C8_admin_override.2.2.2.2.2.2 11 (by decide)

/-- C2, counterexample: `GuildChannelManager._add` called with a second
channel instance carrying the same id but different field values returns the
originally cached instance while leaving it untouched (the function never
writes the channel object), so the second call's fields are not merged — the
returned instance still carries the first call's name and raw position, not
the second's. -/
theorem C2_counterexample :
    (GuildChannelManager.addInstance [chanInstA, chanInstB]
      (GuildChannelManager.addInstance [chanInstA, chanInstB] [] 0).1 1).2 = 0 ∧
    ([chanInstA, chanInstB].get?
        (GuildChannelManager.addInstance [chanInstA, chanInstB]
          (GuildChannelManager.addInstance [chanInstA, chanInstB] [] 0).1 1).2).map
      (fun c => c.rawPosition) = some (some 1) ∧
    ¬ (([chanInstA, chanInstB].get?
        (GuildChannelManager.addInstance [chanInstA, chanInstB]
          (GuildChannelManager.addInstance [chanInstA, chanInstB] [] 0).1 1).2).map
      (fun c => c.rawPosition) = some (some 2)) := by
  refine ⟨rfl, rfl, ?_⟩
  intro h
  rw [show ([chanInstA, chanInstB].get?
      (GuildChannelManager.addInstance [chanInstA, chanInstB]
        (GuildChannelManager.addInstance [chanInstA, chanInstB] [] 0).1 1).2).map
      (fun c => c.rawPosition) = some (some 1) from rfl] at h
  exact absurd h (by decide)

/-- C2 (amended): adding a channel instance and then a second instance with
the same id returns the same (first) instance from both calls — identity
stability holds — but the second call leaves the cache, and by construction
the instance itself, entirely unchanged: `GuildChannelManager._add` performs
no merge; any patching of an existing channel happens upstream in the
client-level manager before this method runs. -/
theorem C2_add_identity (heap : List ChannelState) (cache : Cache (Option String) Nat)
    (r1 r2 : Nat) (c1 c2 : ChannelState)
    (h1 : heap[r1]? = some c1) (h2 : heap[r2]? = some c2)
    (hid : c2.id = c1.id)
    (hfresh : cacheGet cache c1.id = none) :
    (GuildChannelManager.addInstance heap cache r1).2 = r1 ∧
    (GuildChannelManager.addInstance heap (GuildChannelManager.addInstance heap cache r1).1 r2).2
      = r1 ∧
    (GuildChannelManager.addInstance heap (GuildChannelManager.addInstance heap cache r1).1 r2).1
      = (GuildChannelManager.addInstance heap cache r1).1 := by
  have e1 : GuildChannelManager.addInstance heap cache r1 = (cacheSet cache c1.id r1, r1) := by
    simp [GuildChannelManager.addInstance, h1, hfresh]
  have e2 : GuildChannelManager.addInstance heap (cacheSet cache c1.id r1) r2
      = (cacheSet cache c1.id r1, r1) := by
    simp [GuildChannelManager.addInstance, h2, hid, cacheGet_cacheSet_self]
  rw [e1, e2]
  exact ⟨rfl, rfl, rfl⟩

/-- C2 witness: the identity-stability theorem applied to the two concrete
instances sharing id 1 in a two-object heap with an empty cache. -/
theorem C2_add_identity_witness :
    (GuildChannelManager.addInstance [chanInstA, chanInstB]
      (GuildChannelManager.addInstance [chanInstA, chanInstB] [] 0).1 1).2 = 0 :=
  (C2_add_identity [chanInstA, chanInstB] [] 0 1 chanInstA chanInstB rfl rfl rfl rfl).2.1

/-- C7, counterexample: after `RoleManager#edit` resolves, the cache still
holds the pre-edit role (name a) while the returned value is a patched clone
(name b): the cached instance does not reflect the REST response, and no
action handler ran. -/
theorem C7_counterexample :
    RoleManager.edit [("5", { id := some "5", name := some "a", flags := some 0 })] (some "5")
        { id := some (some "5"), name := some (some "b") }
      = Except.ok ([("5", { id := some "5", name := some "a", flags := some 0 })],
          { id := some "5", name := some "b", flags := some 0 }) ∧
    (cacheGet [("5", ({ id := some "5", name := some "a", flags := some 0 } : RoleState))] "5").map
        (fun r => r.flags) = some (some 0) ∧
    ¬ ((cacheGet [("5", ({ id := some "5", name := some "a", flags := some 0 } : RoleState))]
        "5") = some { id := some "5", name := some "b", flags := some 0 }) := by
  refine ⟨rfl, rfl, ?_⟩
  intro h
  have h2 : some ({ id := some "5", name := some "a", flags := some 0 } : RoleState)
      = some { id := some "5", name := some "b", flags := some 0 } := h
  have h3 := congrArg RoleState.name (Option.some.inj h2)
  exact absurd (Option.some.inj h3) (by decide)

/-- C7 (amended): `RoleManager#edit` does not feed the REST response through
the Action/Reconciler layer: once the role is resolved and the collaborator
has answered with `d`, it patches a clone of the cached role and returns the
clone, leaving the cache — and therefore the cached instance — unchanged
(`GuildChannelManager#edit`, by contrast, routes its response through the
`ChannelUpdate` action). -/
theorem C7_edit_clone (cache : Cache String RoleState) (rid : String) (d : RolePayload)
    (r : RoleState) (h : cacheGet cache rid = some r) :
    RoleManager.edit cache (some rid) d = Except.ok (cache, r.patch d) := by
  simp [RoleManager.edit, h]

/-- C7 witness: the clone-edit theorem applied to a one-role cache and a
concrete response payload. -/
theorem C7_edit_clone_witness :
    RoleManager.edit [("5", ({ id := some "5", name := some "a" } : RoleState))] (some "5")
        { name := some (some "b") }
      = Except.ok ([("5", ({ id := some "5", name := some "a" } : RoleState))],
          RoleState.patch { id := some "5", name := some "a" } { name := some (some "b") }) :=
  C7_edit_clone [("5", { id := some "5", name := some "a" })] "5" { name := some (some "b") }
    { id := some "5", name := some "a" } rfl

/-- C6, counterexample: `GuildDeleteAction.handle` on a cached guild deletes
the cache entry and returns the guild, but leaves the instance itself
completely untouched: a previously-held reference still reads the last-known
field values with `deleted` still false — the flag is never set to true. -/
theorem C6_counterexample :
    GuildDeleteAction.handle [GuildObj.make { id := some (some "5"), name := some (some "g") }]
        [(some "5", 0)] { id := some (some "5") }
      = ([{ id := some "5", name := some "g", available := some true, deleted := false }],
          [], some 0) ∧
    ((GuildDeleteAction.handle
        [GuildObj.make { id := some (some "5"), name := some (some "g") }]
        [(some "5", 0)] { id := some (some "5") }).1[0]?).map (fun g => g.deleted)
      = some false ∧
    ¬ (((GuildDeleteAction.handle
        [GuildObj.make { id := some (some "5"), name := some (some "g") }]
        [(some "5", 0)] { id := some (some "5") }).1[0]?).map (fun g => g.deleted)
      = some true) := by
  refine ⟨rfl, rfl, ?_⟩
  intro h
  have h2 : (some false : Option Bool) = some true := h
  exact absurd (Option.some.inj h2) (by decide)

/-- C6 (amended): handling a guild-delete payload for a cached guild removes
the cache entry — so resolving the id afterwards returns null — and returns
the still-referenced instance without writing it, so external references keep
seeing its last-known field values; but the `deleted` flag is not set to
true: it is initialized to false by the constructor and no deletion handler
ever flips it. -/
theorem C6_tombstone :
    (∀ (heap : List GuildObj) (cache : Cache (Option String) Nat) (data : GuildWire)
        (r : Nat) (g : GuildObj),
      cacheGet cache (jval data.id) = some r →
      heap[r]? = some g →
      jval data.unavailable = none →
      CacheWF cache →
      g.id = jval data.id →
      (GuildDeleteAction.handle heap cache data).1 = heap ∧
      (GuildDeleteAction.handle heap cache data).2.2 = some r ∧
      cacheGet (GuildDeleteAction.handle heap cache data).2.1 (jval data.id) = none) ∧
    (∀ data : GuildWire, (GuildObj.make data).deleted = false) := by
  constructor
  · intro heap cache data r g hr hg hunav hwf hgid
    have hhandle : GuildDeleteAction.handle heap cache data
        = (heap, cacheDelete cache (jval data.id), some r) := by
      simp [GuildDeleteAction.handle, hr, hunav, hg, hgid]
    rw [hhandle]
    exact ⟨rfl, rfl, cacheGet_cacheDelete_self cache (jval data.id) hwf⟩
  · intro data
    unfold GuildObj.make
    split <;> rfl

/-- C6 witness: the tombstone theorem applied to a one-guild cache and a
delete payload for it. -/
theorem C6_tombstone_witness :
    (GuildDeleteAction.handle [GuildObj.make { id := some (some "5"), name := some (some "g") }]
        [(some "5", 0)] { id := some (some "5") }).1
      = [GuildObj.make { id := some (some "5"), name := some (some "g") }] ∧
    (GuildDeleteAction.handle [GuildObj.make { id := some (some "5"), name := some (some "g") }]
        [(some "5", 0)] { id := some (some "5") }).2.2 = some 0 ∧
    cacheGet (GuildDeleteAction.handle
        [GuildObj.make { id := some (some "5"), name := some (some "g") }]
        [(some "5", 0)] { id := some (some "5") }).2.1 (some "5") = none :=
  C6_tombstone.1 [GuildObj.make { id := some (some "5"), name := some (some "g") }]
    [(some "5", 0)] { id := some (some "5") } 0
    (GuildObj.make { id := some (some "5"), name := some (some "g") })
    rfl rfl rfl (by simp [CacheWF]) rfl

/-- C10 (confirmed): the roles- and channels-position-update handlers assign
only the `rawPosition` field of each cached entity whose id appears in the
payload (with the last occurrence winning), never insert or remove cache
entries, leave every entity whose id is not listed unchanged, silently skip
listed ids that miss the cache, and do nothing when the guild itself is not
cached. -/
theorem C10_position_update_frame :
    (∀ (cache : Cache String RoleState) (entries : List PosEntry),
      (rolesPositionApply cache entries).map Prod.fst = cache.map Prod.fst) ∧
    (∀ (cache : Cache String RoleState) (entries : List PosEntry) (k : String),
      cacheGet (rolesPositionApply cache entries) k =
        posSpec roleSetRawPosition (fun e => e.id) entries cache k) ∧
    (∀ (cache : Cache String RoleState) (entries : List PosEntry) (k : String),
      lastPos (fun e => e.id) entries k = none →
      cacheGet (rolesPositionApply cache entries) k = cacheGet cache k) ∧
    (∀ (cache : Cache (Option String) AnyChannel) (entries : List PosEntry),
      (channelsPositionApply cache entries).map Prod.fst = cache.map Prod.fst) ∧
    (∀ (cache : Cache (Option String) AnyChannel) (entries : List PosEntry) (k : Option String),
      cacheGet (channelsPositionApply cache entries) k =
        posSpec AnyChannel.setRawPosition (fun e => some e.id) entries cache k) ∧
    (∀ (cache : Cache (Option String) AnyChannel) (entries : List PosEntry) (k : Option String),
      lastPos (fun e => some e.id) entries k = none →
      cacheGet (channelsPositionApply cache entries) k = cacheGet cache k) ∧
    (∀ (ch : AnyChannel) (p : Option Int),
      (ch.setRawPosition p).cid = ch.cid ∧ (ch.setRawPosition p).cname = ch.cname) ∧
    (∀ (guilds : Cache String (Cache String RoleState)) (gid : String) rc entries,
      cacheGet guilds gid = some rc →
      GuildRolesPositionUpdate.handle guilds (some gid) entries
        = cacheSet guilds gid (rolesPositionApply rc entries)) ∧
    (∀ (guilds : Cache String (Cache String RoleState)) (gid : String) entries,
      cacheGet guilds gid = none →
      GuildRolesPositionUpdate.handle guilds (some gid) entries = guilds) ∧
    (∀ (guilds : Cache String (Cache String RoleState)) entries,
      GuildRolesPositionUpdate.handle guilds none entries = guilds) ∧
    (∀ (guilds : Cache String (Cache (Option String) AnyChannel)) (gid : String) cc entries,
      cacheGet guilds gid = some cc →
      GuildChannelsPositionUpdate.handle guilds (some gid) entries
        = cacheSet guilds gid (channelsPositionApply cc entries)) ∧
    (∀ (guilds : Cache String (Cache (Option String) AnyChannel)) (gid : String) entries,
      cacheGet guilds gid = none →
      GuildChannelsPositionUpdate.handle guilds (some gid) entries = guilds) ∧
    (∀ (guilds : Cache String (Cache (Option String) AnyChannel)) entries,
      GuildChannelsPositionUpdate.handle guilds none entries = guilds) := by
  have hupdRole : ∀ (v : RoleState) (p p' : Option Int),
      roleSetRawPosition (roleSetRawPosition v p) p' = roleSetRawPosition v p' := by
    intro v p p'
    rfl
  have hupdChan : ∀ (v : AnyChannel) (p p' : Option Int),
      (v.setRawPosition p).setRawPosition p' = v.setRawPosition p' := by
    intro v p p'
    cases v <;> rfl
  refine ⟨?_, ?_, ?_, ?_, ?_, ?_, ?_, ?_, ?_, ?_, ?_, ?_, ?_⟩
  · intro cache entries
    exact posApply_keys roleSetRawPosition (fun e => e.id) entries cache
  · intro cache entries k
    exact posApply_get roleSetRawPosition (fun e => e.id) entries cache k hupdRole
  · intro cache entries k h
    rw [show rolesPositionApply cache entries
        = posApply roleSetRawPosition (fun e => e.id) cache entries from rfl]
    rw [posApply_get roleSetRawPosition (fun e => e.id) entries cache k hupdRole]
    simp [posSpec, h]
  · intro cache entries
    exact posApply_keys AnyChannel.setRawPosition (fun e => some e.id) entries cache
  · intro cache entries k
    exact posApply_get AnyChannel.setRawPosition (fun e => some e.id) entries cache k hupdChan
  · intro cache entries k h
    rw [show channelsPositionApply cache entries
        = posApply AnyChannel.setRawPosition (fun e => some e.id) cache entries from rfl]
    rw [posApply_get AnyChannel.setRawPosition (fun e => some e.id) entries cache k hupdChan]
    simp [posSpec, h]
  · intro ch p
    cases ch <;> exact ⟨rfl, rfl⟩
  · intro guilds gid rc entries h
    simp [GuildRolesPositionUpdate.handle, h]
  · intro guilds gid entries h
    simp [GuildRolesPositionUpdate.handle, h]
  · intro guilds entries
    rfl
  · intro guilds gid cc entries h
    simp [GuildChannelsPositionUpdate.handle, h]
  · intro guilds gid entries h
    simp [GuildChannelsPositionUpdate.handle, h]
  · intro guilds entries
    rfl

/-- C4, counterexample: two roles and two channels tie on raw ordinal with
ids 1 and 2; the channels rank ascending by id (channel 1 before channel 2)
but the roles rank the opposite way (the lower id gets the higher computed
position), so the tie-break is not the uniform ascending-id order the claim
states. -/
theorem C4_counterexample :
    RoleState.position [roleTieA, roleTieB] roleTieA = 1 ∧
    RoleState.position [roleTieA, roleTieB] roleTieB = 0 ∧
    ChannelState.position [chanTieA, chanTieB] chanTieA = 0 ∧
    ChannelState.position [chanTieA, chanTieB] chanTieB = 1 ∧
    bigIntOf roleTieA.id < bigIntOf roleTieB.id ∧
    ¬ (RoleState.position [roleTieA, roleTieB] roleTieA
        < RoleState.position [roleTieA, roleTieB] roleTieB) := by
  refine ⟨rfl, rfl, rfl, rfl, by decide, ?_⟩
  intro h
  rw [show RoleState.position [roleTieA, roleTieB] roleTieA = 1 from rfl,
    show RoleState.position [roleTieA, roleTieB] roleTieB = 0 from rfl] at h
  omega

/-- C4 (amended): for siblings tying on raw ordinal the computed position is
a strict total order by 64-bit numeric id in both cases, but the directions
differ: two cached channels whose types share a sortable group and which
share a parent rank ascending by id (the lower id gets the lower position),
while two cached roles of the same guild rank descending by id (the lower id
gets the higher position). -/
theorem C4_tiebreak_order :
    (∀ (cache : List ChannelState) (a b : ChannelState) (r : Int),
      a ∈ cache → b ∈ cache →
      getSortableGroupTypes b.ctype = getSortableGroupTypes a.ctype →
      b.parentId = a.parentId →
      a.rawPosition = some r → b.rawPosition = some r →
      bigIntOf a.id < bigIntOf b.id →
      ChannelState.position cache a < ChannelState.position cache b) ∧
    (∀ (cache : List RoleState) (a b : RoleState) (r : Int),
      a ∈ cache → b ∈ cache →
      a.rawPosition = some r → b.rawPosition = some r →
      bigIntOf a.id < bigIntOf b.id →
      RoleState.position cache b < RoleState.position cache a) := by
  constructor
  · intro cache a b r ha hb hgroup hparent har hbr hid
    have hcat : (decide (b.ctype = "GUILD_CATEGORY")) = (decide (a.ctype = "GUILD_CATEGORY")) :=
      decide_eq_decide.mpr (sortable_group_eq_category_iff b.ctype a.ctype hgroup)
    simp only [ChannelState.position]
    rw [hgroup, hcat, hparent, har, hbr]
    apply countP_lt_of_witness cache _ _ ?_ a ha ?_ ?_
    · intro x hx hpx
      simp only [Bool.and_eq_true] at hpx ⊢
      obtain ⟨hfilters, htie⟩ := hpx
      refine ⟨hfilters, ?_⟩
      rcases hj : jeqNum (some r) x.rawPosition with _ | _
      · simp [hj] at htie ⊢
        exact htie
      · simp only [hj, if_true, decide_eq_true_eq] at htie ⊢
        omega
    · simp only [Bool.and_eq_true]
      refine ⟨⟨?_, ?_⟩, ?_⟩
      · exact mem_own_sortable_group a.ctype
      · simp
      · simp [jeqNum, hid, har]
    · simp [jeqNum, har]
  · intro cache a b r ha hb har hbr hid
    unfold RoleState.position
    rw [har, hbr]
    apply countP_lt_of_witness cache _ _ ?_ b hb ?_ ?_
    · intro x hx hpx
      rcases hj : jgt (some r) x.rawPosition with _ | _
      · simp only [hj, Bool.false_eq_true, if_false, Bool.and_eq_true, decide_eq_true_eq]
          at hpx ⊢
        exact ⟨hpx.1, by omega⟩
      · simp only [hj, if_true]
    · simp [jgt, jeqNum, hid, hbr]
    · simp [jgt, jeqNum, hbr]

/-- C4 witness: the order theorem applied to the concrete tying channels with
ids 1 and 2 (once for two text channels, once across the text and news types
of the same sortable group) and to the concrete tying roles. -/
theorem C4_tiebreak_order_witness :
    ChannelState.position [chanTieA, chanTieB] chanTieA
      < ChannelState.position [chanTieA, chanTieB] chanTieB ∧
    ChannelState.position [chanTieA, chanTieNews] chanTieA
      < ChannelState.position [chanTieA, chanTieNews] chanTieNews ∧
    RoleState.position [roleTieA, roleTieB] roleTieB
      < RoleState.position [roleTieA, roleTieB] roleTieA := by
  refine ⟨?_, ?_, ?_⟩
  · exact C4_tiebreak_order.1 [chanTieA, chanTieB] chanTieA chanTieB 0
      (List.mem_cons_self _ _) (List.mem_cons_of_mem _ (List.mem_cons_self _ _))
      rfl rfl rfl rfl (by decide)
  · exact C4_tiebreak_order.1 [chanTieA, chanTieNews] chanTieA chanTieNews 0
      (List.mem_cons_self _ _) (List.mem_cons_of_mem _ (List.mem_cons_self _ _))
      rfl rfl rfl rfl (by decide)
  · exact C4_tiebreak_order.2 [roleTieA, roleTieB] roleTieA roleTieB 0
      (List.mem_cons_self _ _) (List.mem_cons_of_mem _ (List.mem_cons_self _ _))
      rfl rfl (by decide)

/-- C3, counterexample: the payloads carrying only `self_stream` and only
`self_video` have disjoint key sets, yet patching a fresh voice state with
them in sequence leaves `streaming` false while the single union patch sets
it true, because `VoiceState._patch` reads `self_stream` only when the same
payload carries `self_video`. -/
theorem C3_counterexample :
    VoiceStatePayload.disjoint { self_stream := some (some true) }
      { self_video := some (some true) } ∧
    (VoiceState.patch (VoiceState.patch (VoiceState.make { user_id := some (some "u") })
        { self_stream := some (some true) }) { self_video := some (some true) }).streaming
      = some false ∧
    (VoiceState.patch (VoiceState.make { user_id := some (some "u") })
        (VoiceStatePayload.union { self_stream := some (some true) }
          { self_video := some (some true) })).streaming
      = some true ∧
    VoiceState.patch (VoiceState.patch (VoiceState.make { user_id := some (some "u") })
        { self_stream := some (some true) }) { self_video := some (some true) }
      ≠ VoiceState.patch (VoiceState.make { user_id := some (some "u") })
          (VoiceStatePayload.union { self_stream := some (some true) }
            { self_video := some (some true) }) := by
  refine ⟨by decide, rfl, rfl, ?_⟩
  intro h
  have h2 : (some false : Option Bool) = some true := congrArg VoiceState.streaming h
  exact absurd (Option.some.inj h2) (by decide)

/-- C3 (amended): sequential patches with disjoint key sets coincide with the
single key-wise-union patch, except where one assignment reads a key other
than the one that guards it. For `VoiceState._patch` the law holds provided
the `self_video` and `self_stream` keys are not split across the two
payloads; for `ForumChannel._patch` it holds provided the first payload does
not carry the unconditionally-assigned `id` key, and does not set `nsfw` to
null while the second payload omits it. -/
theorem C3_patch_merge :
    (∀ (s : VoiceState) (p1 p2 : VoiceStatePayload),
      VoiceStatePayload.disjoint p1 p2 →
      (p1.self_video = none ∨ p2.self_stream = none) →
      (p2.self_video = none ∨ p1.self_stream = none) →
      VoiceState.patch (VoiceState.patch s p1) p2
        = VoiceState.patch s (VoiceStatePayload.union p1 p2)) ∧
    (∀ (s : ForumChannelState) (p1 p2 : ChannelPayload),
      ChannelPayload.disjoint p1 p2 →
      p1.id = none →
      (p1.nsfw = some none → p2.nsfw = none → False) →
      ForumChannelState.patch (ForumChannelState.patch s p1) p2
        = ForumChannelState.patch s (ChannelPayload.union p1 p2)) := by
  constructor
  · intro s p1 p2 hdisj h1 h2
    rcases hsv2 : p2.self_video with _ | v2
    · rcases hsv1 : p1.self_video with _ | v1
      · simp [VoiceState.patch, VoiceStatePayload.union, hsv1, hsv2]
      · have hss2 : p2.self_stream = none := by
          rcases h1 with h | h
          · rw [hsv1] at h
            cases h
          · exact h
        simp [VoiceState.patch, VoiceStatePayload.union, hsv1, hsv2, hss2]
    · have hss1 : p1.self_stream = none := by
        rcases h2 with h | h
        · rw [hsv2] at h
          cases h
        · exact h
      simp [VoiceState.patch, VoiceStatePayload.union, hsv2, hss1]
  · intro s p1 p2 hdisj hid hnsfw
    rcases hn2 : p2.nsfw with _ | v2
    · rcases hn1 : p1.nsfw with _ | v1
      · simp [ForumChannelState.patch, ForumChannelState.patchGuildChannel,
          ChannelPayload.union, jupdD, hid, hn1, hn2]
      · rcases v1 with _ | b
        · exact (hnsfw hn1 hn2).elim
        · simp [ForumChannelState.patch, ForumChannelState.patchGuildChannel,
            ChannelPayload.union, jupdD, hid, hn1, hn2]
    · simp [ForumChannelState.patch, ForumChannelState.patchGuildChannel,
        ChannelPayload.union, jupdD, hid, hn2]

/-- C3 witness: the merge law applied to a voice state and two concrete
disjoint payloads that keep the gated keys together, and to a forum channel
with two concrete disjoint payloads whose first carries no id. -/
theorem C3_patch_merge_witness :
    VoiceState.patch (VoiceState.patch (VoiceState.make { user_id := some (some "u") })
        { self_mute := some (some true) })
        { self_video := some (some true), self_stream := some (some true) }
      = VoiceState.patch (VoiceState.make { user_id := some (some "u") })
          (VoiceStatePayload.union { self_mute := some (some true) }
            { self_video := some (some true), self_stream := some (some true) }) ∧
    ForumChannelState.patch (ForumChannelState.patch (ForumChannelState.make none {})
        { topic := some (some "t") }) { name := some (some "n") }
      = ForumChannelState.patch (ForumChannelState.make none {})
          (ChannelPayload.union { topic := some (some "t") } { name := some (some "n") }) := by
  constructor
  · exact C3_patch_merge.1 (VoiceState.make { user_id := some (some "u") })
      { self_mute := some (some true) }
      { self_video := some (some true), self_stream := some (some true) }
      (by decide) (Or.inl rfl) (Or.inr rfl)
  · exact C3_patch_merge.2 (ForumChannelState.make none {})
      { topic := some (some "t") } { name := some (some "n") }
      (by constructor <;> simp) rfl (fun h _ => by cases h)

/-- C5 (confirmed): a snapshot collection key on a guild payload makes
`Guild._patch` clear the corresponding manager cache and rebuild it from
exactly the payload entries: the resulting channel cache is independent of
whatever the guild previously cached, and each rebuilt cache equals the fold
of the manager's add over the payload list starting from the empty cache
(`threads` entries, when present, are added on top of the rebuilt channel
cache without clearing). The snapshot-bootstrap scenario holds: one channel
entry keyed 1 named general and one role entry keyed 10. -/
theorem C5_snapshot_rebuild :
    (∀ (hpu : Bool) (client : Cache (Option String) AnyChannel) (g g' : GuildCaches)
        (data : GuildPayload) (l : List ChannelPayload), data.channels = some l →
      (Guild.patchCollections hpu client g data).2.channels
        = (Guild.patchCollections hpu client g' data).2.channels) ∧
    (∀ (hpu : Bool) (client : Cache (Option String) AnyChannel) (g : GuildCaches)
        (data : GuildPayload) (l : List ChannelPayload),
      data.channels = some l → data.threads = none →
      (Guild.patchCollections hpu client g data).2.channels
        = (l.foldl (Guild.chanAddStep (jval data.id)) (client, [])).2) ∧
    (∀ (hpu : Bool) (client : Cache (Option String) AnyChannel) (g : GuildCaches)
        (data : GuildPayload) (l : List RolePayload), data.roles = some l →
      (Guild.patchCollections hpu client g data).2.roles
        = l.foldl RoleManager.addData []) ∧
    (∀ (hpu : Bool) (client : Cache (Option String) AnyChannel) (g : GuildCaches)
        (data : GuildPayload) (l : List RawEntity), data.members = some l →
      (Guild.patchCollections hpu client g data).2.members = l.foldl rawAdd []) ∧
    (∀ (hpu : Bool) (client : Cache (Option String) AnyChannel) (g : GuildCaches)
        (data : GuildPayload) (l : List RawEntity), data.stage_instances = some l →
      (Guild.patchCollections hpu client g data).2.stageInstances = l.foldl rawAdd []) ∧
    (∀ (hpu : Bool) (client : Cache (Option String) AnyChannel) (g : GuildCaches)
        (data : GuildPayload) (l : List RawEntity), data.guild_scheduled_events = some l →
      (Guild.patchCollections hpu client g data).2.scheduledEvents = l.foldl rawAdd []) ∧
    (∀ (hpu : Bool) (client : Cache (Option String) AnyChannel) (g : GuildCaches)
        (data : GuildPayload) (l : List VoiceStatePayload), data.voice_states = some l →
      (Guild.patchCollections hpu client g data).2.voiceStates
        = l.foldl VoiceStateManager.addData []) ∧
    ((Guild.patchCollections true [] {} scenarioGuildPayload).2.channels.map
        (fun e => (e.1, e.2.cname)) = [(some "1", some "general")]) ∧
    ((Guild.patchCollections true [] {} scenarioGuildPayload).2.roles.map Prod.fst = ["10"]) ∧
    ((cacheGet (Guild.patchCollections true [] {} scenarioGuildPayload).2.roles "10").map
        (fun r => r.name) = some (some "@everyone")) := by
  refine ⟨?_, ?_, ?_, ?_, ?_, ?_, ?_, rfl, rfl, rfl⟩
  · intro hpu client g g' data l h
    simp only [Guild.patchCollections, h]
  · intro hpu client g data l h ht
    simp only [Guild.patchCollections, h, ht]
  · intro hpu client g data l h
    simp only [Guild.patchCollections, h]
  · intro hpu client g data l h
    simp only [Guild.patchCollections, h]
  · intro hpu client g data l h
    simp only [Guild.patchCollections, h]
  · intro hpu client g data l h
    simp only [Guild.patchCollections, h]
  · intro hpu client g data l h
    simp only [Guild.patchCollections, h]

/-- C5 witness: the rebuild theorem applied to the snapshot-bootstrap
scenario payload and an arbitrary dirty prior guild state. -/
theorem C5_snapshot_rebuild_witness :
    (Guild.patchCollections true []
        { channels := [(some "9", AnyChannel.category (CategoryChannelState.make none {}))] }
        scenarioGuildPayload).2.channels
      = (Guild.patchCollections true [] {} scenarioGuildPayload).2.channels ∧
    (Guild.patchCollections true [] {} scenarioGuildPayload).2.roles
      = [{ id := some (some "10"), name := some (some "@everyone"),
           position := some (some 0),
           permissions := some (some 104324673) }].foldl RoleManager.addData [] := by
  constructor
  · exact C5_snapshot_rebuild.1 true []
      { channels := [(some "9", AnyChannel.category (CategoryChannelState.make none {}))] } {}
      scenarioGuildPayload
      [{ id := some (some "1"), ctype := some (some 0), name := some (some "general") }] rfl
  · exact C5_snapshot_rebuild.2.2.1 true [] {} scenarioGuildPayload
      [{ id := some (some "10"), name := some (some "@everyone"),
         position := some (some 0), permissions := some (some 104324673) }] rfl

/-- C10 witness: the frame theorem applied to a concrete one-guild,
one-role cache with a one-entry payload, and to an empty payload. -/
theorem C10_position_update_frame_witness :
    GuildRolesPositionUpdate.handle [("g", [("1", roleTieA)])] (some "g")
        [{ id := some "1", position := some 4 }]
      = cacheSet [("g", [("1", roleTieA)])] "g"
          (rolesPositionApply [("1", roleTieA)] [{ id := some "1", position := some 4 }]) ∧
    cacheGet (rolesPositionApply [("1", roleTieA)] []) "1" = cacheGet [("1", roleTieA)] "1" :=
  ⟨C10_position_update_frame.2.2.2.2.2.2.2.1 [("g", [("1", roleTieA)])] "g" [("1", roleTieA)]
      [{ id := some "1", position := some 4 }] rfl,
    C10_position_update_frame.2.2.1 [("1", roleTieA)] [] "1" rfl⟩

end Djs

